import Mathlib

/-!
# A shallow embedding of `png-creator`

This file embeds the core of the `png-creator` TypeScript library in Lean 4 and
proves the specification claims about it.  The embedding covers:

* `validation.ts` — the `throwIf…` assertion helpers (errors become an explicit
  `JSError` value in an `Except` monad);
* `png.types.ts` — the color-name table, the color-type constants and the
  per-color-type byte widths;
* `pixelCanvas.ts` — the `PixelCanvas` builder: construction, `setPixels` and
  `setScale` (mutation is modelled by state passing; a thrown exception carries
  the state at the throw point so that "no partial mutation" is expressible);
* `png.helper.ts` — per-pixel sample packing for the four supported color
  modes, including an exact model of the IEEE-754 double-precision luminance
  computation (JavaScript numbers are binary64 floats; every float appearing in
  the grayscale conversion is a dyadic rational `m / 2^k`, which we represent
  exactly);
* `pngCreator.ts` — CRC-32, chunk framing, IHDR construction and the two
  assembly entry points (`Buffer`s become `List Nat` of byte values; the
  injected `zlib.deflateSync` dependency becomes a function parameter).

Definitions are translated from the sources; `spec…` definitions restate the
specification's wording and are proved against the translated code.
-/

/-- The JavaScript error classes thrown by `validation.ts` and `png.helper.ts`:
`TypeError`, `RangeError` and `ReferenceError` (the spec's "lookup error"). -/
inductive JSError where
  | typeError
  | rangeError
  | referenceError
  deriving DecidableEq, Repr

/-- A JavaScript value that is expected to be a number but (being untyped at
runtime) may be something else; `PixelCanvas`'s constructor guards against
non-numbers with `throwIfNotNumber`.  Numbers that reach a `new Array(length)`
allocation are integral here, so the numeric payload is an `Int`. -/
inductive JSVal where
  | num (n : Int)
  | str (s : String)
  deriving DecidableEq, Repr

/-- `throwIfNotNumber` (validation.ts): `TypeError` unless the value is a
number; as an embedding convenience it returns the numeric payload. -/
def throwIfNotNumber : JSVal → Except JSError Int
  | .num n => .ok n
  | .str _ => .error .typeError

/-- `throwIfNegative` (validation.ts): `RangeError` if `value < 0`. -/
def throwIfNegative {α : Type} [LinearOrder α] [Zero α] (value : α) :
    Except JSError Unit :=
  if value < 0 then .error .rangeError else .ok ()

/-- `throwIfOutOfRange` (validation.ts): `RangeError` unless
`min ≤ value ≤ max` (the source passes the bounds as a `{min, max}` record;
they are the two trailing arguments here). -/
def throwIfOutOfRange {α : Type} [LinearOrder α] (value lo hi : α) :
    Except JSError Unit :=
  if value < lo ∨ hi < value then .error .rangeError else .ok ()

/-- `throwIfNotInKeys` (validation.ts): `ReferenceError` unless `value` is a
key of the object, here an association list. -/
def throwIfNotInKeys (value : String) (object : List (String × Nat)) :
    Except JSError Unit :=
  if (object.lookup value).isSome then .ok () else .error .referenceError

/-- Modelled from the spec: `throwIfNotInteger` from `validation.ts` is
imported by `pixelCanvas.ts` and exercised by the unit tests in
`validation.spec.ts`, but its definition is not among the provided source
files.  Per the spec's error taxonomy (§7: TypeError-class for a wrong value
kind) and its unit tests (`throwIfNotInteger(3.14)` throws a `TypeError`,
`throwIfNotInteger(42)` does not) it throws a `TypeError` exactly when its
numeric argument is not an integer. -/
def throwIfNotInteger (value : ℚ) : Except JSError Unit :=
  if value.den = 1 then .ok () else .error .typeError

/-- `COLORS` (png.types.ts): the fixed table of named colors mapped to packed
24-bit RGB values. -/
def COLORS : List (String × Nat) := [
  ("aliceblue", 0xf0f8ff), ("antiquewhite", 0xfaebd7), ("aqua", 0x00ffff),
  ("aquamarine", 0x7fffd4), ("azure", 0xf0ffff), ("beige", 0xf5f5dc),
  ("bisque", 0xffe4c4), ("black", 0x000000), ("blanchedalmond", 0xffebcd),
  ("blue", 0x0000ff), ("blueviolet", 0x8a2be2), ("brown", 0xa52a2a),
  ("burlywood", 0xdeb887), ("cadetblue", 0x5f9ea0), ("chartreuse", 0x7fff00),
  ("chocolate", 0xd2691e), ("coral", 0xff7f50), ("cornflowerblue", 0x6495ed),
  ("cornsilk", 0xfff8dc), ("crimson", 0xdc143c), ("cyan", 0x00ffff),
  ("darkblue", 0x00008b), ("darkcyan", 0x008b8b), ("darkgoldenrod", 0xb8860b),
  ("darkgray", 0xa9a9a9), ("darkgreen", 0x006400), ("darkgrey", 0xa9a9a9),
  ("darkkhaki", 0xbdb76b), ("darkmagenta", 0x8b008b),
  ("darkolivegreen", 0x556b2f), ("darkorange", 0xff8c00),
  ("darkorchid", 0x9932cc), ("darkred", 0x8b0000), ("darksalmon", 0xe9967a),
  ("darkseagreen", 0x8fbc8f), ("darkslateblue", 0x483d8b),
  ("darkslategray", 0x2f4f4f), ("darkslategrey", 0x2f4f4f),
  ("darkturquoise", 0x00ced1), ("darkviolet", 0x9400d3),
  ("deeppink", 0xff1493), ("deepskyblue", 0x00bfff), ("dimgray", 0x696969),
  ("dimgrey", 0x696969), ("dodgerblue", 0x1e90ff), ("firebrick", 0xb22222),
  ("floralwhite", 0xfffaf0), ("forestgreen", 0x228b22),
  ("fuchsia", 0xff00ff), ("gainsboro", 0xdcdcdc), ("ghostwhite", 0xf8f8ff),
  ("gold", 0xffd700), ("goldenrod", 0xdaa520), ("gray", 0x808080),
  ("green", 0x008000), ("greenyellow", 0xadff2f), ("grey", 0x808080),
  ("honeydew", 0xf0fff0), ("hotpink", 0xff69b4), ("indianred", 0xcd5c5c),
  ("indigo", 0x4b0082), ("ivory", 0xfffff0), ("khaki", 0xf0e68c),
  ("lavender", 0xe6e6fa), ("lavenderblush", 0xfff0f5),
  ("lawngreen", 0x7cfc00), ("lemonchiffon", 0xfffacd),
  ("lightblue", 0xadd8e6), ("lightcoral", 0xf08080), ("lightcyan", 0xe0ffff),
  ("lightgoldenrodyellow", 0xfafad2), ("lightgray", 0xd3d3d3),
  ("lightgreen", 0x90ee90), ("lightgrey", 0xd3d3d3), ("lightpink", 0xffb6c1),
  ("lightsalmon", 0xffa07a), ("lightseagreen", 0x20b2aa),
  ("lightskyblue", 0x87cefa), ("lightslategray", 0x778899),
  ("lightslategrey", 0x778899), ("lightsteelblue", 0xb0c4de),
  ("lightyellow", 0xffffe0), ("lime", 0x00ff00), ("limegreen", 0x32cd32),
  ("linen", 0xfaf0e6), ("magenta", 0xff00ff), ("maroon", 0x800000),
  ("mediumaquamarine", 0x66cdaa), ("mediumblue", 0x0000cd),
  ("mediumorchid", 0xba55d3), ("mediumpurple", 0x9370db),
  ("mediumseagreen", 0x3cb371), ("mediumslateblue", 0x7b68ee),
  ("mediumspringgreen", 0x00fa9a), ("mediumturquoise", 0x48d1cc),
  ("mediumvioletred", 0xc71585), ("midnightblue", 0x191970),
  ("mintcream", 0xf5fffa), ("mistyrose", 0xffe4e1), ("moccasin", 0xffe4b5),
  ("navajowhite", 0xffdead), ("navy", 0x000080), ("oldlace", 0xfdf5e6),
  ("olive", 0x808000), ("olivedrab", 0x6b8e23), ("orange", 0xffa500),
  ("orangered", 0xff4500), ("orchid", 0xda70d6),
  ("palegoldenrod", 0xeee8aa), ("palegreen", 0x98fb98),
  ("paleturquoise", 0xafeeee), ("palevioletred", 0xdb7093),
  ("papayawhip", 0xffefd5), ("peachpuff", 0xffdab9), ("peru", 0xcd853f),
  ("pink", 0xffc0cb), ("plum", 0xdda0dd), ("powderblue", 0xb0e0e6),
  ("purple", 0x800080), ("rebeccapurple", 0x663399), ("red", 0xff0000),
  ("rosybrown", 0xbc8f8f), ("royalblue", 0x4169e1),
  ("saddlebrown", 0x8b4513), ("salmon", 0xfa8072), ("sandybrown", 0xf4a460),
  ("seagreen", 0x2e8b57), ("seashell", 0xfff5ee), ("sienna", 0xa0522d),
  ("silver", 0xc0c0c0), ("skyblue", 0x87ceeb), ("slateblue", 0x6a5acd),
  ("slategray", 0x708090), ("slategrey", 0x708090), ("snow", 0xfffafa),
  ("springgreen", 0x00ff7f), ("steelblue", 0x4682b4), ("tan", 0xd2b48c),
  ("teal", 0x008080), ("thistle", 0xd8bfd8), ("tomato", 0xff6347),
  ("turquoise", 0x40e0d0), ("violet", 0xee82ee), ("wheat", 0xf5deb3),
  ("white", 0xffffff), ("whitesmoke", 0xf5f5f5), ("yellow", 0xffff00),
  ("yellowgreen", 0x9acd32)]

namespace COLOR_TYPES

/-- Greyscale: each pixel is a greyscale sample. -/
def GRAYSCALE : Nat := 0

/-- Truecolor: each pixel is an R,G,B triple. -/
def TRUE_COLOR : Nat := 2

/-- Indexed-color (unsupported by the library). -/
def INDEXED_COLOR : Nat := 3

/-- Greyscale with alpha. -/
def GRAYSCALE_ALPHA : Nat := 4

/-- Truecolor with alpha. -/
def TRUE_COLOR_ALPHA : Nat := 6

end COLOR_TYPES

/-- `COLOR_TYPE_BYTES` (png.types.ts): bytes per pixel for each color type. -/
def COLOR_TYPE_BYTES (colorType : Nat) : Nat :=
  if colorType = COLOR_TYPES.GRAYSCALE then 1
  else if colorType = COLOR_TYPES.TRUE_COLOR then 3
  else if colorType = COLOR_TYPES.INDEXED_COLOR then 1
  else if colorType = COLOR_TYPES.GRAYSCALE_ALPHA then 2
  else if colorType = COLOR_TYPES.TRUE_COLOR_ALPHA then 4
  else 0

/-- `VALID_COLOR_VALUE_RANGE` (png.types.ts): `{min: 0, max: 0xffffff}`. -/
def VALID_COLOR_VALUE_RANGE : Int × Int := (0, 0xffffff)

/-- A color argument: a symbolic name or a packed numeric value
(`type Color = ColorName | number`). -/
inductive Color where
  | name (s : String)
  | value (n : Int)
  deriving DecidableEq, Repr

/-- A pixel map: columns of cells, each cell an optional packed color
(`(number | null)[][]`, column-major: `pixelMap[x][y]`). -/
abbrev PixelMap := List (List (Option Nat))

/-- `initPixelMap` (pixelCanvas.ts): a `width × height` map of unset cells. -/
def initPixelMap (width height : Nat) : PixelMap :=
  List.replicate width (List.replicate height none)

/-- The state of a `PixelCanvas` instance: its private fields. -/
structure PixelCanvas where
  width : Nat
  height : Nat
  pixelMap : PixelMap
  lastUsedColor : Nat
  backgroundColor : Nat
  deriving DecidableEq, Repr

/-- The field initializers of the `PixelCanvas` class: a 16×16 all-unset map,
cursor 0, background 0. -/
def PixelCanvas.initial : PixelCanvas :=
  { width := 16, height := 16, pixelMap := initPixelMap 16 16,
    lastUsedColor := 0, backgroundColor := 0 }

/-- The constructor's options bag (`PixelCanvasOptions`). -/
structure PixelCanvasOptions where
  width : JSVal
  height : JSVal
  backgroundColor : Color
  pixelMap : Option PixelMap := none

/-- `#validateColor` (pixelCanvas.ts): a string is looked up in `COLORS`
(`ReferenceError` when absent), a number must lie in
`VALID_COLOR_VALUE_RANGE` (`RangeError` otherwise). -/
def validateColor : Color → Except JSError Nat
  | .name s => do
    throwIfNotInKeys s COLORS
    pure ((COLORS.lookup s).getD 0)
  | .value n => do
    throwIfOutOfRange n VALID_COLOR_VALUE_RANGE.1 VALID_COLOR_VALUE_RANGE.2
    pure n.toNat

/-- `#validateInitialPixelMap` (pixelCanvas.ts): `RangeError` when the outer
length differs from `width` or any column length differs from `height`. -/
def validateInitialPixelMap (pixelMap : PixelMap) (width height : Int) :
    Except JSError Unit :=
  if (pixelMap.length : Int) ≠ width then .error .rangeError
  else if pixelMap.any (fun column => (column.length : Int) ≠ height) then
    .error .rangeError
  else .ok ()

/-- The `PixelCanvas` constructor.  With no options the field initializers
stand; otherwise width and height are checked to be non-negative numbers, a
supplied initial map is validated (else a fresh one is allocated), and the
background color is resolved. -/
def PixelCanvas.make (options : Option PixelCanvasOptions) :
    Except JSError PixelCanvas := do
  match options with
  | none => pure PixelCanvas.initial
  | some o =>
    let w ← throwIfNotNumber o.width
    throwIfNegative w
    let h ← throwIfNotNumber o.height
    throwIfNegative h
    let pm ← match o.pixelMap with
      | some m => do
        validateInitialPixelMap m w h
        pure m
      | none => pure (initPixelMap w.toNat h.toNat)
    let bg ← validateColor o.backgroundColor
    pure { width := w.toNat, height := h.toNat, pixelMap := pm,
           lastUsedColor := 0, backgroundColor := bg }

/-- Read a cell of a pixel map (`pixelMap[x][y]`; out-of-range reads yield
`none`, which is unreachable under the well-formedness hypotheses used
below). -/
def get2d (m : PixelMap) (x y : Nat) : Option Nat :=
  (m.getD x []).getD y none

/-- Write a cell of a pixel map (`pixelMap[x][y] = v`; out-of-range writes
are a no-op, unreachable for the validated in-range writes below). -/
def set2d (m : PixelMap) (x y : Nat) (v : Option Nat) : PixelMap :=
  m.set x ((m.getD x []).set y v)

/-- A mutating canvas method that throws leaves the instance as it was at the
throw point; the embedding returns that state alongside the error. -/
def withState {α : Type} (c : PixelCanvas) :
    Except JSError α → Except (JSError × PixelCanvas) α :=
  Except.mapError (fun e => (e, c))

/-- `setPixels` (pixelCanvas.ts): validate every x, then every y, then resolve
the color (the cursor when omitted), then write the full Cartesian product
and update the cursor. -/
def setPixels (c : PixelCanvas) (xValues yValues : List Int)
    (color : Option Color) : Except (JSError × PixelCanvas) PixelCanvas := do
  withState c <| xValues.forM fun x =>
    throwIfOutOfRange x 0 ((c.width : Int) - 1)
  withState c <| yValues.forM fun y =>
    throwIfOutOfRange y 0 ((c.height : Int) - 1)
  let currentColor ← withState c <|
    match color with
    | some col => validateColor col
    | none => pure c.lastUsedColor
  let newMap := xValues.foldl
    (fun m x => yValues.foldl
      (fun m y => set2d m x.toNat y.toNat (some currentColor)) m)
    c.pixelMap
  pure { c with pixelMap := newMap, lastUsedColor := currentColor }

/-- `#scaleOnePixel` (pixelCanvas.ts): replicate source cell `(x, y)` into its
`scale × scale` block of the target map. -/
def scaleOnePixel (c : PixelCanvas) (x y scale : Nat) (pixelMap : PixelMap) :
    PixelMap :=
  (List.range scale).foldl
    (fun m i => (List.range scale).foldl
      (fun m j => set2d m (x * scale + i) (y * scale + j) (get2d c.pixelMap x y)) m)
    pixelMap

/-- `setScale` (pixelCanvas.ts): validate the factor (a non-negative number,
within `[1, 100]`, an integer), allocate a fresh `(width·scale) × (height·scale)`
map, replicate every source cell into its block, and replace width, height and
map.  The factor is a JavaScript number, embedded as `ℚ` so that the
non-integer failure case is representable (`throwIfNotNumber` is discharged by
the embedding's type). -/
def setScale (c : PixelCanvas) (scale : ℚ) :
    Except (JSError × PixelCanvas) PixelCanvas := do
  withState c <| throwIfNegative scale
  withState c <| throwIfOutOfRange scale 1 100
  withState c <| throwIfNotInteger scale
  let s := scale.num.toNat
  let newWidth := c.width * s
  let newHeight := c.height * s
  let newPixelMap := (List.range c.width).foldl
    (fun m x => (List.range c.height).foldl
      (fun m y => scaleOnePixel c x y s m) m)
    (initPixelMap newWidth newHeight)
  pure { c with width := newWidth, height := newHeight,
                pixelMap := newPixelMap }

/-- `getSize` (pixelCanvas.ts). -/
def PixelCanvas.getSize (c : PixelCanvas) : Nat × Nat := (c.width, c.height)

/-- `getPixelMap` (pixelCanvas.ts). -/
def PixelCanvas.getPixelMap (c : PixelCanvas) : PixelMap := c.pixelMap

/-- `getBackgroundColor` (pixelCanvas.ts). -/
def PixelCanvas.getBackgroundColor (c : PixelCanvas) : Nat := c.backgroundColor

/-! ## png.helper.ts — per-pixel sample packing

JavaScript numbers are IEEE-754 binary64 floats.  Every float that occurs in
the grayscale conversion (the literals `0.299`, `0.587`, `0.114`, their
products with 8-bit channel values, and the running sums — all non-negative,
normal, and far from overflow) is a dyadic rational, represented exactly as
`m / 2^k` with `m k : Nat`.  Arithmetic results are rounded to 53 significant
bits with round-to-nearest, ties-to-even, exactly as binary64 requires on this
range. -/

/-- Floor of the base-2 logarithm by structural recursion on a fuel bound
(exact for `n < 2^fuel`; every value in this file is far below `2^64`). -/
def log2Fuel : Nat → Nat → Nat
  | 0, _ => 0
  | fuel + 1, n => if n < 2 then 0 else log2Fuel fuel (n >>> 1) + 1

/-- Round `n / d` (with `d ≠ 0`) to the nearest integer, ties to even. -/
def roundHalfEvenDiv (n d : Nat) : Nat :=
  let q := n / d
  let r := n % d
  if 2 * r < d then q else if d < 2 * r then q + 1 else
  if q % 2 = 0 then q else q + 1

/-- A non-negative dyadic rational `m / 2^k`, the exact value of a binary64
float in the range used by the grayscale conversion. -/
structure Dyadic where
  m : Nat
  k : Nat
  deriving DecidableEq, Repr

/-- Round an exact dyadic value to 53 significant bits (nearest, ties to
even): the binary64 rounding step for values in the normal, non-overflowing
range with `k` large enough (both hold throughout the luminance
computation). -/
def fpNormalize (x : Dyadic) : Dyadic :=
  if x.m < 2 ^ 53 then x
  else
    let shift := log2Fuel 64 x.m - 52
    let m2 := roundHalfEvenDiv x.m (2 ^ shift)
    if m2 = 2 ^ 53 then ⟨2 ^ 52, x.k - shift - 1⟩ else ⟨m2, x.k - shift⟩

/-- The binary64 value of the decimal literal `a / b` (used for `0.299`,
`0.587` and `0.114`): nearest float, ties to even. -/
def doubleLit (a b : Nat) : Dyadic :=
  if a = 0 then ⟨0, 0⟩
  else
    let la := log2Fuel 64 a
    let lb := log2Fuel 64 b
    let adj := if b * 2 ^ la ≤ a * 2 ^ lb then 0 else 1
    let s := 52 + lb + adj - la
    fpNormalize ⟨roundHalfEvenDiv (a <<< s) b, s⟩

/-- Binary64 product of a float and a small exact integer (the channel value):
exact product, then one rounding — exactly IEEE multiplication. -/
def fpMul (x : Dyadic) (n : Nat) : Dyadic :=
  fpNormalize ⟨x.m * n, x.k⟩

/-- Binary64 sum of two floats: exact sum, then one rounding — exactly IEEE
addition on this range. -/
def fpAdd (x y : Dyadic) : Dyadic :=
  if x.k ≤ y.k then fpNormalize ⟨x.m * 2 ^ (y.k - x.k) + y.m, y.k⟩
  else fpNormalize ⟨x.m + y.m * 2 ^ (x.k - y.k), x.k⟩

/-- `Math.round` on a non-negative float: the closest integer, half toward
`+∞`, i.e. `⌊x + 1/2⌋ = ⌊(2m + 2^k) / 2^(k+1)⌋`. -/
def jsMathRound (x : Dyadic) : Nat :=
  (2 * x.m + 2 ^ x.k) >>> (x.k + 1)

/-- `throwIfInvalidColorValue` (png.helper.ts). -/
def throwIfInvalidColorValue (colorValue : Int) : Except JSError Unit := do
  throwIfNegative colorValue
  throwIfOutOfRange colorValue VALID_COLOR_VALUE_RANGE.1
    VALID_COLOR_VALUE_RANGE.2

/-- `Buffer.alloc n`: a zero-filled byte buffer. -/
def bufferAlloc (n : Nat) : List Nat := List.replicate n 0

/-- `createTrueColorPixelBuffer` (png.helper.ts): validate, then emit the
three RGB bytes of the packed value into a 3-byte buffer. -/
def createTrueColorPixelBuffer (colorValue : Int) :
    Except JSError (List Nat) := do
  throwIfInvalidColorValue colorValue
  let v := colorValue.toNat
  let buffer := bufferAlloc (COLOR_TYPE_BYTES COLOR_TYPES.TRUE_COLOR)
  pure ((((buffer.set 0 ((v >>> 16) &&& 0xff)).set 1
    ((v >>> 8) &&& 0xff)).set 2 (v &&& 0xff)))

/-- `convertTrueColorToGrayscale` (png.helper.ts):
`Math.round(0.299 * red + 0.587 * green + 0.114 * blue)` computed in binary64
double precision, channel values taken from the packed color's bytes. -/
def convertTrueColorToGrayscale (colorValue : Nat) : Nat :=
  let red := (colorValue >>> 16) &&& 0xff
  let green := (colorValue >>> 8) &&& 0xff
  let blue := colorValue &&& 0xff
  jsMathRound (fpAdd (fpAdd (fpMul (doubleLit 299 1000) red)
    (fpMul (doubleLit 587 1000) green)) (fpMul (doubleLit 114 1000) blue))

/-- `createGrayscalePixelBuffer` (png.helper.ts): validate, then emit the
single grayscale byte. -/
def createGrayscalePixelBuffer (colorValue : Int) :
    Except JSError (List Nat) := do
  throwIfInvalidColorValue colorValue
  let buffer := bufferAlloc (COLOR_TYPE_BYTES COLOR_TYPES.GRAYSCALE)
  pure (buffer.set 0 (convertTrueColorToGrayscale colorValue.toNat))

/-- `createAlphaPixelBuffer` (png.helper.ts): validate, then one byte that is
`0xff` unless the color value is exactly `0`. -/
def createAlphaPixelBuffer (colorValue : Int) : Except JSError (List Nat) := do
  throwIfInvalidColorValue colorValue
  let buffer := bufferAlloc 1
  if colorValue ≠ 0 then pure (buffer.set 0 0xff) else pure buffer

/-- `createPixelBuffer` (png.helper.ts): dispatch on the color type; alpha
modes concatenate the sample bytes with the derived alpha byte; any other
type is a `TypeError`. -/
def createPixelBuffer (colorValue : Int) (colorType : Nat) :
    Except JSError (List Nat) :=
  if colorType = COLOR_TYPES.GRAYSCALE then
    createGrayscalePixelBuffer colorValue
  else if colorType = COLOR_TYPES.GRAYSCALE_ALPHA then do
    let g ← createGrayscalePixelBuffer colorValue
    let a ← createAlphaPixelBuffer colorValue
    pure (g ++ a)
  else if colorType = COLOR_TYPES.TRUE_COLOR then
    createTrueColorPixelBuffer colorValue
  else if colorType = COLOR_TYPES.TRUE_COLOR_ALPHA then do
    let t ← createTrueColorPixelBuffer colorValue
    let a ← createAlphaPixelBuffer colorValue
    pure (t ++ a)
  else .error .typeError

/-! ## pngCreator.ts — CRC-32, chunk framing and assembly

`Buffer`s are byte lists; all JavaScript 32-bit operations stay below `2^32`
here (`>>> 0` normalizations are identities on these values), so plain `Nat`
bit operations are the exact semantics.  The injected `zlib.deflateSync`
dependency is a function parameter. -/

/-- `#PNG_SIGNATURE` (pngCreator.ts): the eight fixed signature bytes. -/
def PNG_SIGNATURE : List Nat := [0x89, 0x50, 0x4e, 0x47, 0x0d, 0x0a, 0x1a, 0x0a]

/-- `Buffer.from(string)` for the ASCII chunk type tags. -/
def strToBytes (s : String) : List Nat := s.toList.map Char.toNat

/-- One iteration of the inner loop of `#getCrc32Table`: conditionally fold in
the reflected polynomial `0xEDB88320` and shift right. -/
def crc32Step (current : Nat) : Nat :=
  if current &&& 1 = 1 then 0xedb88320 ^^^ (current >>> 1) else current >>> 1

/-- The entry `#getCrc32Table` computes for `index`: eight `crc32Step`
iterations. -/
def crc32TableEntry (index : Nat) : Nat :=
  crc32Step (crc32Step (crc32Step (crc32Step (crc32Step (crc32Step
    (crc32Step (crc32Step index)))))))

/-- The full 256-entry lookup table that `#getCrc32Table` builds. -/
def crc32Table : List Nat := (List.range 256).map crc32TableEntry

/-- `#getCrc32Table` (pngCreator.ts) with the instance's `#crc32Table` cache
explicit: build the table when the cache is empty, else reuse it; returns the
table and the updated cache. -/
def getCrc32Table (cache : List Nat) : List Nat × List Nat :=
  if cache.length = 0 then (crc32Table, crc32Table) else (cache, cache)

/-- The loop of `#computeCRC32` over a given table: seed `0xFFFFFFFF`, per
byte index by `(crc ^ byte) & 0xff` and combine with `crc >>> 8`, complement
the result (`~crc >>> 0 = crc ^ 0xFFFFFFFF` on these 32-bit values). -/
def computeCRC32With (table : List Nat) (buffer : List Nat) : Nat :=
  let crc := buffer.foldl
    (fun crc byte => table.getD ((crc ^^^ byte) &&& 0xff) 0 ^^^ (crc >>> 8))
    0xffffffff
  crc ^^^ 0xffffffff

/-- `#computeCRC32` (pngCreator.ts) with the table cache explicit. -/
def computeCRC32St (cache : List Nat) (buffer : List Nat) :
    Nat × List Nat :=
  let tc := getCrc32Table cache
  (computeCRC32With tc.1 buffer, tc.2)

/-- `#computeCRC32` as the pure function it computes (the table a freshly
built instance would use). -/
def computeCRC32 (buffer : List Nat) : Nat :=
  computeCRC32With crc32Table buffer

/-- `Buffer.writeUInt32BE value offset`: the four big-endian bytes of a
32-bit value. -/
def uint32BE (value : Nat) : List Nat :=
  [(value >>> 24) &&& 0xff, (value >>> 16) &&& 0xff,
   (value >>> 8) &&& 0xff, value &&& 0xff]

/-- Splice `bs` into `buf` at offset `off` (the effect of an in-bounds
`Buffer` write). -/
def writeBytesAt (buf : List Nat) (off : Nat) (bs : List Nat) : List Nat :=
  buf.take off ++ bs ++ buf.drop (off + bs.length)

/-- Node's `Buffer.writeUInt32BE`: `RangeError` unless the value fits in 32
bits and the four bytes fit in the buffer. -/
def writeUInt32BE (buf : List Nat) (value off : Nat) :
    Except JSError (List Nat) :=
  if value < 2 ^ 32 ∧ off + 4 ≤ buf.length then
    .ok (writeBytesAt buf off (uint32BE value))
  else .error .rangeError

/-- Node's `Buffer.writeUInt8`: `RangeError` unless the value fits in a byte
and the offset is in bounds. -/
def writeUInt8 (buf : List Nat) (value off : Nat) :
    Except JSError (List Nat) :=
  if value < 2 ^ 8 ∧ off + 1 ≤ buf.length then
    .ok (writeBytesAt buf off [value])
  else .error .rangeError

/-- `#CHUNK_BYTES_SIZE` (pngCreator.ts). -/
def CHUNK_BYTES_SIZE : Nat := 4

/-- `#IHDR_BYTES_LENGTH` (pngCreator.ts). -/
def IHDR_BYTES_LENGTH : Nat := 13

namespace IHDR_INDEXES

/-- Offset of the width field. -/
def WIDTH : Nat := 0

/-- Offset of the height field. -/
def HEIGHT : Nat := 4

/-- Offset of the bit-depth byte. -/
def BIT_DEPTH : Nat := 8

/-- Offset of the color-type byte. -/
def COLOR_TYPE : Nat := 9

/-- Offset of the compression-method byte. -/
def COMPRESSION_METHOD : Nat := 10

/-- Offset of the filter-method byte. -/
def FILTER_METHOD : Nat := 11

/-- Offset of the interlace-method byte. -/
def INTERLACE_METHOD : Nat := 12

end IHDR_INDEXES

/-- `#DEFAULT_BIT_DEPTH` (pngCreator.ts). -/
def DEFAULT_BIT_DEPTH : Nat := 8

/-- `#DEFAULT_COMPRESSION_METHOD` (pngCreator.ts). -/
def DEFAULT_COMPRESSION_METHOD : Nat := 0

/-- `#DEFAULT_FILTER_METHOD` (pngCreator.ts). -/
def DEFAULT_FILTER_METHOD : Nat := 0

/-- `#DEFAULT_INTERLACE_METHOD` (pngCreator.ts). -/
def DEFAULT_INTERLACE_METHOD : Nat := 0

/-- `#DEFAULT_COLOR_TYPE` (pngCreator.ts): Truecolor. -/
def DEFAULT_COLOR_TYPE : Nat := COLOR_TYPES.TRUE_COLOR

/-- `#createIHDRBuffer` (pngCreator.ts): a 13-byte buffer with width, height
and the five single-byte fields written at their offsets. -/
def createIHDRBuffer (width height colorType : Nat) :
    Except JSError (List Nat) := do
  let ihdr := bufferAlloc IHDR_BYTES_LENGTH
  let ihdr ← writeUInt32BE ihdr width IHDR_INDEXES.WIDTH
  let ihdr ← writeUInt32BE ihdr height IHDR_INDEXES.HEIGHT
  let ihdr ← writeUInt8 ihdr DEFAULT_BIT_DEPTH IHDR_INDEXES.BIT_DEPTH
  let ihdr ← writeUInt8 ihdr colorType IHDR_INDEXES.COLOR_TYPE
  let ihdr ← writeUInt8 ihdr DEFAULT_COMPRESSION_METHOD
    IHDR_INDEXES.COMPRESSION_METHOD
  let ihdr ← writeUInt8 ihdr DEFAULT_FILTER_METHOD IHDR_INDEXES.FILTER_METHOD
  let ihdr ← writeUInt8 ihdr DEFAULT_INTERLACE_METHOD
    IHDR_INDEXES.INTERLACE_METHOD
  pure ihdr

/-- `#createChunk` (pngCreator.ts): length (4 bytes, big-endian), type tag,
payload, then the CRC-32 of type ‖ payload (4 bytes, big-endian). -/
def createChunk (chunkType : String) (chunkData : List Nat) :
    Except JSError (List Nat) := do
  let typeBuffer := strToBytes chunkType
  let length ← writeUInt32BE (bufferAlloc CHUNK_BYTES_SIZE)
    chunkData.length 0
  let crcBuffer := typeBuffer ++ chunkData
  let crc ← writeUInt32BE (bufferAlloc CHUNK_BYTES_SIZE)
    (computeCRC32 crcBuffer) 0
  pure (length ++ typeBuffer ++ chunkData ++ crc)

/-- `#addBackgroundColor` (pngCreator.ts): replace every unset (`null`) cell
by the background color, explicit values passing through. -/
def addBackgroundColor (pixelMap : PixelMap) (backgroundColor : Nat) :
    List (List Nat) :=
  pixelMap.map fun row => row.map fun column =>
    match column with
    | none => backgroundColor
    | some v => v

/-- `#computeImageBuffer` (pngCreator.ts): resolve the background, then for
each row `y` push one filter byte (`Buffer.alloc(1)`, i.e. a zero) followed by
the encoded pixels for `x = 0 … width-1`, and concatenate. -/
def computeImageBuffer (pixelCanvas : PixelCanvas) (colorType : Nat) :
    Except JSError (List Nat) := do
  let pixelMap := addBackgroundColor pixelCanvas.getPixelMap
    pixelCanvas.getBackgroundColor
  let scanlines ← (List.range pixelCanvas.getSize.2).mapM fun y => do
    let pixels ← (List.range pixelCanvas.getSize.1).mapM fun x =>
      createPixelBuffer (((pixelMap.getD x []).getD y 0 : Nat) : Int) colorType
    pure (bufferAlloc 1 ++ pixels.flatten)
  pure scanlines.flatten

/-- `#finalizeCreation` (pngCreator.ts): signature ‖ IHDR chunk ‖ IDAT chunk ‖
empty IEND chunk. -/
def finalizeCreation (ihdrBuffer idatBuffer : List Nat) :
    Except JSError (List Nat) := do
  let ihdrChunk ← createChunk "IHDR" ihdrBuffer
  let idatChunk ← createChunk "IDAT" idatBuffer
  let iendChunk ← createChunk "IEND" (bufferAlloc 0)
  pure (PNG_SIGNATURE ++ ihdrChunk ++ idatChunk ++ iendChunk)

/-- `createFromCanvas` (pngCreator.ts): compute the raw pixel stream, deflate
it, build the IHDR payload and finalize.  `deflateSync` is the injected
compressor dependency. -/
def createFromCanvas (deflateSync : List Nat → List Nat)
    (pixelCanvas : PixelCanvas) (colorMode : Option Nat) :
    Except JSError (List Nat) := do
  let colorType := colorMode.getD DEFAULT_COLOR_TYPE
  let imageData ← computeImageBuffer pixelCanvas colorType
  let idatBuffer := deflateSync imageData
  let ihdrBuffer ← createIHDRBuffer pixelCanvas.getSize.1
    pixelCanvas.getSize.2 colorType
  finalizeCreation ihdrBuffer idatBuffer

/-- `createFromBuffer` (pngCreator.ts): deflate the caller's raw pixel
stream, build the IHDR payload and finalize. -/
def createFromBuffer (deflateSync : List Nat → List Nat)
    (pixelBuffer : List Nat) (width height colorType : Nat) :
    Except JSError (List Nat) := do
  let idatBuffer := deflateSync pixelBuffer
  let ihdrBuffer ← createIHDRBuffer width height colorType
  finalizeCreation ihdrBuffer idatBuffer

/-! ## Specification-side definitions

These restate the spec's wording independently of the translated code; the
claim theorems below relate the two. -/

/-- Spec §4.4/§6 chunk framing:
`BigEndian32(len(payload)) ‖ type ‖ payload ‖ BigEndian32(crc32(type ‖ payload))`. -/
def specChunk (chunkType : String) (payload : List Nat) : List Nat :=
  uint32BE payload.length ++ strToBytes chunkType ++ payload ++
    uint32BE (computeCRC32 (strToBytes chunkType ++ payload))

/-- Spec §6 IHDR payload: width(u32) ‖ height(u32) ‖ sampleDepth(8) ‖
colorEncodingMode ‖ compression(0) ‖ filter(0) ‖ interlace(0). -/
def specIHDRPayload (width height colorType : Nat) : List Nat :=
  uint32BE width ++ uint32BE height ++ [8, colorType, 0, 0, 0]

/-- Spec §6 byte-exact output layout: signature ‖ IHDR chunk ‖ IDAT chunk
(payload = compressor output) ‖ empty IEND chunk. -/
def specPNGLayout (width height colorType : Nat) (idatPayload : List Nat) :
    List Nat :=
  PNG_SIGNATURE ++ specChunk "IHDR" (specIHDRPayload width height colorType) ++
    specChunk "IDAT" idatPayload ++ specChunk "IEND" []

/-- Spec-side bit-level reflected CRC-32, one bit: shift right, folding in the
polynomial when the LSB was set. -/
def specCrcBit (crc : Nat) : Nat :=
  if crc &&& 1 = 1 then (crc >>> 1) ^^^ 0xedb88320 else crc >>> 1

/-- Spec-side reflected CRC-32, one byte: XOR the byte in, then eight bit
steps (LSB first — the "reflected" convention). -/
def specCrcByte (crc byte : Nat) : Nat :=
  specCrcBit (specCrcBit (specCrcBit (specCrcBit (specCrcBit (specCrcBit
    (specCrcBit (specCrcBit (crc ^^^ byte))))))))

/-- Spec §4.4 checksum: the standard reflected CRC-32 with polynomial
`0xEDB88320`, seeded with all ones and bitwise-inverted on output. -/
def specCrc32 (data : List Nat) : Nat :=
  data.foldl specCrcByte 0xffffffff ^^^ 0xffffffff

/-- The claim's resolution step for one cell: an unset cell becomes the
background color, an explicit value passes through. -/
def specResolveCell (cell : Option Nat) (backgroundColor : Nat) : Nat :=
  cell.getD backgroundColor

/-- The encoded bytes of one pixel, as a total function (the `ok` value of
`createPixelBuffer`, which the claim theorems show is always reached for
valid colors and modes). -/
def pixelBufferBytes (colorValue : Nat) (colorType : Nat) : List Nat :=
  ((createPixelBuffer (colorValue : Int) colorType).toOption).getD []

/-- One spec-side scanline for row `y`: a single filter-type byte `0`, then
the encoded bytes of the background-resolved pixels for `x` from left to
right. -/
def specScanline (c : PixelCanvas) (colorType y : Nat) : List Nat :=
  0 :: (List.range c.width).flatMap fun x =>
    pixelBufferBytes (specResolveCell (get2d c.pixelMap x y)
      c.backgroundColor) colorType

/-- Spec §4.4 raw pixel stream: the scanlines for `y` from top to bottom,
concatenated. -/
def specRawPixelStream (c : PixelCanvas) (colorType : Nat) : List Nat :=
  (List.range c.height).flatMap (specScanline c colorType)

/-- The spec's exact luminance formula
`round(0.299·R + 0.587·G + 0.114·B)` over exact rationals (round half up, as
`Math.round` does): `⌊(299R + 587G + 114B)/1000 + 1/2⌋`. -/
def specLuminanceByte (colorValue : Nat) : Nat :=
  let red := (colorValue >>> 16) &&& 0xff
  let green := (colorValue >>> 8) &&& 0xff
  let blue := colorValue &&& 0xff
  (2 * (299 * red + 587 * green + 114 * blue) + 1000) / 2000

/-- Well-formedness of a canvas state: the pixel map has `width` columns of
`height` cells each (the `PixelMap` data-model invariant). -/
abbrev PixelCanvas.WF (c : PixelCanvas) : Prop :=
  c.pixelMap.length = c.width ∧
    ∀ col ∈ c.pixelMap, col.length = c.height

/-- All explicitly set cells and the background hold legal packed colors. -/
abbrev PixelCanvas.ValidColors (c : PixelCanvas) : Prop :=
  c.backgroundColor ≤ 0xffffff ∧
    ∀ col ∈ c.pixelMap, ∀ cell ∈ col, ∀ v ∈ cell, v ≤ 0xffffff

/-- The four color types the library supports. -/
abbrev SupportedColorType (colorType : Nat) : Prop :=
  colorType = COLOR_TYPES.GRAYSCALE ∨ colorType = COLOR_TYPES.TRUE_COLOR ∨
    colorType = COLOR_TYPES.GRAYSCALE_ALPHA ∨
    colorType = COLOR_TYPES.TRUE_COLOR_ALPHA

/-- Shape of a pixel map: `W` columns, each of length `H` (indexed form, used
by the mutation proofs). -/
def Shaped (m : PixelMap) (W H : Nat) : Prop :=
  m.length = W ∧ ∀ i < W, (m.getD i []).length = H

/-- The color a fill operation resolves and writes: the validated explicit
color when one is supplied, else the cursor. -/
def resolveArgColor (c : PixelCanvas) : Option Color → Nat
  | some col => ((validateColor col).toOption).getD 0
  | none => c.lastUsedColor

/-- A color argument that `#validateColor` accepts. -/
abbrev ValidColorArg : Option Color → Prop
  | some (.name s) => (COLORS.lookup s).isSome = true
  | some (.value n) => 0 ≤ n ∧ n ≤ 0xffffff
  | none => True

/-! ## Helper lemmas -/

theorem except_bind_ok {ε α β : Type} (a : α) (f : α → Except ε β) :
    (Except.ok a >>= f) = f a := rfl

theorem except_list_mapM_ok {ε α β : Type} (f : α → Except ε β) (g : α → β) :
    ∀ l : List α, (∀ a ∈ l, f a = .ok (g a)) →
      l.mapM f = Except.ok (l.map g) := by
  intro l h
  induction l with
  | nil => rfl
  | cons a t ih =>
    rw [List.mapM_cons, h a (List.mem_cons_self a t), List.map_cons,
      except_bind_ok, ih fun b hb => h b (List.mem_cons_of_mem a hb),
      except_bind_ok]
    rfl

theorem shiftRight_le_self (n k : Nat) : n >>> k ≤ n := by
  rw [Nat.shiftRight_eq_div_pow]
  exact Nat.div_le_self n (2 ^ k)

set_option maxRecDepth 10000 in
theorem crc32Table_entries_lt : ∀ e ∈ crc32Table, e < 2 ^ 32 := by decide

theorem getD_lt_of_all {l : List Nat} {d : Nat} (hl : ∀ e ∈ l, e < 2 ^ 32)
    (hd : d < 2 ^ 32) (i : Nat) : l.getD i d < 2 ^ 32 := by
  by_cases h : i < l.length
  · rw [List.getD_eq_getElem l d h]
    exact hl _ (List.getElem_mem h)
  · rw [List.getD_eq_default l d (Nat.le_of_not_lt h)]
    exact hd

theorem crc_fold_lt (table : List Nat) (ht : ∀ e ∈ table, e < 2 ^ 32)
    (buffer : List Nat) :
    ∀ crc, crc < 2 ^ 32 →
      buffer.foldl
        (fun crc byte => table.getD ((crc ^^^ byte) &&& 0xff) 0 ^^^ (crc >>> 8))
        crc < 2 ^ 32 := by
  induction buffer with
  | nil => intro crc h; exact h
  | cons b t ih =>
    intro crc h
    rw [List.foldl_cons]
    exact ih _ (Nat.xor_lt_two_pow (getD_lt_of_all ht (by norm_num) _)
      (Nat.lt_of_le_of_lt (shiftRight_le_self crc 8) h))

theorem computeCRC32_lt (buffer : List Nat) : computeCRC32 buffer < 2 ^ 32 := by
  unfold computeCRC32 computeCRC32With
  exact Nat.xor_lt_two_pow
    (crc_fold_lt crc32Table crc32Table_entries_lt buffer _ (by norm_num))
    (by norm_num)

theorem writeUInt32BE_ok (buf : List Nat) (v off : Nat) (hv : v < 2 ^ 32)
    (hoff : off + 4 ≤ buf.length) :
    writeUInt32BE buf v off = .ok (writeBytesAt buf off (uint32BE v)) := by
  unfold writeUInt32BE
  rw [if_pos ⟨hv, hoff⟩]

theorem writeUInt8_ok (buf : List Nat) (v off : Nat) (hv : v < 2 ^ 8)
    (hoff : off + 1 ≤ buf.length) :
    writeUInt8 buf v off = .ok (writeBytesAt buf off [v]) := by
  unfold writeUInt8
  rw [if_pos ⟨hv, hoff⟩]

theorem createChunk_ok (chunkType : String) (chunkData : List Nat)
    (h : chunkData.length < 2 ^ 32) :
    createChunk chunkType chunkData = .ok (specChunk chunkType chunkData) := by
  unfold createChunk
  dsimp only
  rw [writeUInt32BE_ok _ _ _ h (by decide), except_bind_ok,
    writeUInt32BE_ok _ _ _ (computeCRC32_lt _) (by decide), except_bind_ok]
  rfl

set_option maxHeartbeats 1600000 in
theorem createIHDRBuffer_ok (w h ct : Nat) (hw : w < 2 ^ 32)
    (hh : h < 2 ^ 32) (hct : ct < 2 ^ 8) :
    createIHDRBuffer w h ct = .ok (specIHDRPayload w h ct) := by
  unfold createIHDRBuffer
  dsimp only
  rw [writeUInt32BE_ok (bufferAlloc IHDR_BYTES_LENGTH) w
    IHDR_INDEXES.WIDTH hw (by decide), except_bind_ok]
  rw [writeUInt32BE_ok
    (writeBytesAt (bufferAlloc IHDR_BYTES_LENGTH) IHDR_INDEXES.WIDTH
      (uint32BE w)) h
    IHDR_INDEXES.HEIGHT hh (by show (8 : Nat) ≤ 13; decide), except_bind_ok]
  rw [writeUInt8_ok
    (writeBytesAt (writeBytesAt (bufferAlloc IHDR_BYTES_LENGTH)
      IHDR_INDEXES.WIDTH (uint32BE w)) IHDR_INDEXES.HEIGHT (uint32BE h))
    DEFAULT_BIT_DEPTH IHDR_INDEXES.BIT_DEPTH (by decide)
    (by show (9 : Nat) ≤ 13; decide), except_bind_ok]
  rw [writeUInt8_ok
    (writeBytesAt (writeBytesAt (writeBytesAt (bufferAlloc IHDR_BYTES_LENGTH)
      IHDR_INDEXES.WIDTH (uint32BE w)) IHDR_INDEXES.HEIGHT (uint32BE h))
      IHDR_INDEXES.BIT_DEPTH [DEFAULT_BIT_DEPTH])
    ct IHDR_INDEXES.COLOR_TYPE hct
    (by show (10 : Nat) ≤ 13; decide), except_bind_ok]
  rw [writeUInt8_ok
    (writeBytesAt (writeBytesAt (writeBytesAt (writeBytesAt
      (bufferAlloc IHDR_BYTES_LENGTH)
      IHDR_INDEXES.WIDTH (uint32BE w)) IHDR_INDEXES.HEIGHT (uint32BE h))
      IHDR_INDEXES.BIT_DEPTH [DEFAULT_BIT_DEPTH]) IHDR_INDEXES.COLOR_TYPE [ct])
    DEFAULT_COMPRESSION_METHOD IHDR_INDEXES.COMPRESSION_METHOD (by decide)
    (by show (11 : Nat) ≤ 13; decide), except_bind_ok]
  rw [writeUInt8_ok
    (writeBytesAt (writeBytesAt (writeBytesAt (writeBytesAt (writeBytesAt
      (bufferAlloc IHDR_BYTES_LENGTH)
      IHDR_INDEXES.WIDTH (uint32BE w)) IHDR_INDEXES.HEIGHT (uint32BE h))
      IHDR_INDEXES.BIT_DEPTH [DEFAULT_BIT_DEPTH]) IHDR_INDEXES.COLOR_TYPE [ct])
      IHDR_INDEXES.COMPRESSION_METHOD [DEFAULT_COMPRESSION_METHOD])
    DEFAULT_FILTER_METHOD IHDR_INDEXES.FILTER_METHOD (by decide)
    (by show (12 : Nat) ≤ 13; decide), except_bind_ok]
  rw [writeUInt8_ok
    (writeBytesAt (writeBytesAt (writeBytesAt (writeBytesAt (writeBytesAt
      (writeBytesAt (bufferAlloc IHDR_BYTES_LENGTH)
      IHDR_INDEXES.WIDTH (uint32BE w)) IHDR_INDEXES.HEIGHT (uint32BE h))
      IHDR_INDEXES.BIT_DEPTH [DEFAULT_BIT_DEPTH]) IHDR_INDEXES.COLOR_TYPE [ct])
      IHDR_INDEXES.COMPRESSION_METHOD [DEFAULT_COMPRESSION_METHOD])
      IHDR_INDEXES.FILTER_METHOD [DEFAULT_FILTER_METHOD])
    DEFAULT_INTERLACE_METHOD IHDR_INDEXES.INTERLACE_METHOD (by decide)
    (by show (13 : Nat) ≤ 13; decide), except_bind_ok]
  rfl

theorem finalizeCreation_ok (ihdrBuffer idatBuffer : List Nat)
    (h1 : ihdrBuffer.length < 2 ^ 32) (h2 : idatBuffer.length < 2 ^ 32) :
    finalizeCreation ihdrBuffer idatBuffer =
      .ok (PNG_SIGNATURE ++ specChunk "IHDR" ihdrBuffer ++
        specChunk "IDAT" idatBuffer ++ specChunk "IEND" []) := by
  unfold finalizeCreation
  rw [createChunk_ok _ _ h1, except_bind_ok, createChunk_ok _ _ h2,
    except_bind_ok, createChunk_ok _ _ (by decide), except_bind_ok]
  rfl

/-! ## Claim theorems -/

/-- C10: constructing a `PixelCanvas` with no options succeeds and yields
width 16, height 16, background color 0, cursor 0, and a fully unset 16×16
pixel map (16 columns of 16 unset cells each). -/
theorem claim_C10_default_constructor :
    PixelCanvas.make none = .ok PixelCanvas.initial ∧
      PixelCanvas.initial.width = 16 ∧ PixelCanvas.initial.height = 16 ∧
      PixelCanvas.initial.backgroundColor = 0 ∧
      PixelCanvas.initial.lastUsedColor = 0 ∧
      PixelCanvas.initial.pixelMap =
        List.replicate 16 (List.replicate 16 none) :=
  ⟨rfl, rfl, rfl, rfl, rfl, rfl⟩

/-- C3: for every chunk type tag and payload, the serialized chunk is the
4-byte big-endian payload length, then the type tag, then the payload, then
the 4-byte big-endian CRC-32 of the tag concatenated with the payload. -/
theorem claim_C3_chunk_framing (chunkType : String) (chunkData : List Nat)
    (h : chunkData.length < 2 ^ 32) :
    createChunk chunkType chunkData = .ok (specChunk chunkType chunkData) :=
  createChunk_ok chunkType chunkData h

theorem claim_C3_chunk_framing_witness :
    ([1, 2, 3] : List Nat).length < 2 ^ 32 ∧
      createChunk "IDAT" [1, 2, 3] = .ok (specChunk "IDAT" [1, 2, 3]) :=
  ⟨by decide, claim_C3_chunk_framing "IDAT" [1, 2, 3] (by decide)⟩

/-- C2: both creation entry points return exactly the 8-byte PNG signature,
then one IHDR chunk whose 13-byte payload is width (big-endian u32), height
(big-endian u32), sample depth 8, the color mode, and three zero bytes, then
exactly one IDAT chunk whose payload is the compressor's output, then one
empty IEND chunk.  For `createFromCanvas` the compressed stream is the
deflate of the computed image buffer. -/
theorem claim_C2_png_layout :
    (∀ (deflateSync : List Nat → List Nat) (pixelBuffer : List Nat)
      (width height colorType : Nat),
      width < 2 ^ 32 → height < 2 ^ 32 → colorType < 2 ^ 8 →
      (deflateSync pixelBuffer).length < 2 ^ 32 →
      createFromBuffer deflateSync pixelBuffer width height colorType =
        .ok (specPNGLayout width height colorType (deflateSync pixelBuffer))) ∧
    (∀ (deflateSync : List Nat → List Nat) (pixelCanvas : PixelCanvas)
      (colorMode : Option Nat) (imageData : List Nat),
      computeImageBuffer pixelCanvas (colorMode.getD DEFAULT_COLOR_TYPE) =
        .ok imageData →
      pixelCanvas.width < 2 ^ 32 → pixelCanvas.height < 2 ^ 32 →
      colorMode.getD DEFAULT_COLOR_TYPE < 2 ^ 8 →
      (deflateSync imageData).length < 2 ^ 32 →
      createFromCanvas deflateSync pixelCanvas colorMode =
        .ok (specPNGLayout pixelCanvas.width pixelCanvas.height
          (colorMode.getD DEFAULT_COLOR_TYPE) (deflateSync imageData))) := by
  constructor
  · intro deflateSync pixelBuffer width height colorType hw hh hct hlen
    unfold createFromBuffer
    dsimp only
    rw [createIHDRBuffer_ok _ _ _ hw hh hct, except_bind_ok,
      finalizeCreation_ok (specIHDRPayload width height colorType)
        (deflateSync pixelBuffer) (by show (13 : Nat) < 2 ^ 32; decide) hlen]
    rfl
  · intro deflateSync pixelCanvas colorMode imageData himg hw hh hct hlen
    unfold createFromCanvas
    dsimp only
    rw [himg, except_bind_ok,
      createIHDRBuffer_ok pixelCanvas.getSize.1 pixelCanvas.getSize.2 _
        hw hh hct, except_bind_ok,
      finalizeCreation_ok (specIHDRPayload pixelCanvas.getSize.1
          pixelCanvas.getSize.2 (colorMode.getD DEFAULT_COLOR_TYPE))
        (deflateSync imageData) (by show (13 : Nat) < 2 ^ 32; decide) hlen]
    rfl

theorem claim_C2_png_layout_witness :
    ((1 : Nat) < 2 ^ 32 ∧ (1 : Nat) < 2 ^ 32 ∧ (0 : Nat) < 2 ^ 8 ∧
      (id ([0, 1, 2, 3] : List Nat)).length < 2 ^ 32) ∧
      createFromBuffer id [0, 1, 2, 3] 1 1 0 =
        .ok (specPNGLayout 1 1 0 (id [0, 1, 2, 3])) :=
  ⟨by decide, claim_C2_png_layout.1 id [0, 1, 2, 3] 1 1 0
    (by decide) (by decide) (by decide) (by decide)⟩

/-! ## CRC-32: the table-driven loop implements the bit-level reflected CRC -/

theorem xor_shiftRight (a b k : Nat) :
    (a ^^^ b) >>> k = (a >>> k) ^^^ (b >>> k) := by
  apply Nat.eq_of_testBit_eq
  intro i
  simp [Nat.testBit_shiftRight, Nat.testBit_xor]

theorem testBit_255 (i : Nat) : Nat.testBit 255 i = decide (i < 8) := by
  rw [show (255 : Nat) = 2 ^ 8 - 1 by norm_num, Nat.testBit_two_pow_sub_one]

theorem lo_xor_hi_shift (x : Nat) : (x &&& 255) ^^^ ((x >>> 8) <<< 8) = x := by
  apply Nat.eq_of_testBit_eq
  intro i
  rcases Nat.lt_or_ge i 8 with h8 | h8
  · simp [Nat.testBit_xor, Nat.testBit_and, Nat.testBit_shiftLeft,
      Nat.testBit_shiftRight, testBit_255, h8, Nat.not_le.mpr h8]
  · simp [Nat.testBit_xor, Nat.testBit_and, Nat.testBit_shiftLeft,
      Nat.testBit_shiftRight, testBit_255, h8, Nat.not_lt.mpr h8,
      Nat.add_sub_cancel' h8]

theorem crc32Step_xor_even (x t : Nat) :
    crc32Step (x ^^^ 2 * t) = crc32Step x ^^^ t := by
  unfold crc32Step
  have h1 : (x ^^^ 2 * t) &&& 1 = x &&& 1 := by
    rw [Nat.and_xor_distrib_right, Nat.and_one_is_mod (2 * t),
      Nat.mul_mod_right, Nat.xor_zero]
  have h2 : (x ^^^ 2 * t) >>> 1 = (x >>> 1) ^^^ t := by
    rw [xor_shiftRight]
    congr 1
    rw [Nat.shiftRight_eq_div_pow, pow_one, Nat.mul_div_cancel_left t
      (by norm_num)]
  rw [h1, h2]
  by_cases hx : x &&& 1 = 1
  · rw [if_pos hx, if_pos hx, Nat.xor_assoc]
  · rw [if_neg hx, if_neg hx]

theorem shiftLeft_succ_eq_two_mul (m j : Nat) : m <<< (j + 1) = 2 * (m <<< j) := by
  rw [Nat.shiftLeft_eq, Nat.shiftLeft_eq, pow_succ]
  ring

theorem crc32TableEntry_split (lo hi : Nat) :
    crc32TableEntry (lo ^^^ hi <<< 8) = crc32TableEntry lo ^^^ hi := by
  unfold crc32TableEntry
  rw [shiftLeft_succ_eq_two_mul hi 7, crc32Step_xor_even,
    shiftLeft_succ_eq_two_mul hi 6, crc32Step_xor_even,
    shiftLeft_succ_eq_two_mul hi 5, crc32Step_xor_even,
    shiftLeft_succ_eq_two_mul hi 4, crc32Step_xor_even,
    shiftLeft_succ_eq_two_mul hi 3, crc32Step_xor_even,
    shiftLeft_succ_eq_two_mul hi 2, crc32Step_xor_even,
    shiftLeft_succ_eq_two_mul hi 1, crc32Step_xor_even,
    shiftLeft_succ_eq_two_mul hi 0, crc32Step_xor_even,
    Nat.shiftLeft_zero]

theorem crc32TableEntry_decompose (x : Nat) :
    crc32TableEntry x = crc32TableEntry (x &&& 255) ^^^ (x >>> 8) := by
  conv_lhs => rw [← lo_xor_hi_shift x]
  rw [crc32TableEntry_split]

theorem crc32Table_getD (i : Nat) (h : i < 256) :
    crc32Table.getD i 0 = crc32TableEntry i := by
  unfold crc32Table
  rw [List.getD_eq_getElem _ _ (by simpa using h)]
  simp

theorem specCrcBit_eq_crc32Step (y : Nat) : specCrcBit y = crc32Step y := by
  unfold specCrcBit crc32Step
  by_cases h1 : y &&& 1 = 1 <;> simp [h1, Nat.xor_comm]

theorem crc_step_eq_specCrcByte (crc b : Nat) (hb : b < 256) :
    crc32Table.getD ((crc ^^^ b) &&& 0xff) 0 ^^^ (crc >>> 8) =
      specCrcByte crc b := by
  have hidx : (crc ^^^ b) &&& 0xff < 256 :=
    Nat.lt_succ_of_le Nat.and_le_right
  rw [crc32Table_getD _ hidx]
  have hbyte : specCrcByte crc b = crc32TableEntry (crc ^^^ b) := by
    unfold specCrcByte crc32TableEntry
    simp [specCrcBit_eq_crc32Step]
  rw [hbyte, crc32TableEntry_decompose (crc ^^^ b)]
  congr 1
  rw [xor_shiftRight]
  have hb8 : b >>> 8 = 0 := by
    rw [Nat.shiftRight_eq_div_pow]
    omega
  rw [hb8, Nat.xor_zero]

theorem computeCRC32_eq_specCrc32 (data : List Nat)
    (hdata : ∀ b ∈ data, b < 256) : computeCRC32 data = specCrc32 data := by
  unfold computeCRC32 computeCRC32With specCrc32
  dsimp only
  have main : ∀ (l : List Nat), (∀ b ∈ l, b < 256) → ∀ crc,
      l.foldl
        (fun crc byte => crc32Table.getD ((crc ^^^ byte) &&& 0xff) 0 ^^^
          (crc >>> 8)) crc =
      l.foldl specCrcByte crc := by
    intro l
    induction l with
    | nil => intro _ crc; rfl
    | cons b t ih =>
      intro hl crc
      rw [List.foldl_cons, List.foldl_cons]
      rw [crc_step_eq_specCrcByte crc b (hl b (List.mem_cons_self b t))]
      exact ih (fun x hx => hl x (List.mem_cons_of_mem b hx)) _
  rw [main data hdata]

set_option maxRecDepth 100000 in
/-- C4: the checksum is the standard reflected CRC-32 (polynomial
`0xEDB88320`, seeded all-ones, byte-at-a-time through the 256-entry table,
inverted on output): the table-driven loop agrees with the bit-level
reflected-CRC definition on all byte streams; the computation is independent
of the instance's cache state (empty or already built), so of call order; and
the checksum of the tag `IEND` with empty payload is the fixed value
`0xAE426082` (with the standard check-value `CRC32("123456789") =
0xCBF43926` pinning the algorithm). -/
theorem claim_C4_crc32 :
    (∀ cache, (cache = [] ∨ cache = crc32Table) → ∀ buffer,
      computeCRC32St cache buffer = (computeCRC32 buffer, crc32Table)) ∧
    (∀ data, (∀ b ∈ data, b < 256) → computeCRC32 data = specCrc32 data) ∧
    computeCRC32 (strToBytes "IEND") = 0xae426082 ∧
    specCrc32 (strToBytes "123456789") = 0xcbf43926 := by
  refine ⟨?_, computeCRC32_eq_specCrc32, by decide, by decide⟩
  intro cache hc buffer
  rcases hc with rfl | rfl
  · rfl
  · unfold computeCRC32St getCrc32Table
    rw [if_neg (by decide : ¬crc32Table.length = 0)]
    rfl

theorem claim_C4_crc32_witness :
    (([] : List Nat) = [] ∨ ([] : List Nat) = crc32Table) ∧
      computeCRC32St [] (strToBytes "IEND") =
        (computeCRC32 (strToBytes "IEND"), crc32Table) :=
  ⟨Or.inl rfl, claim_C4_crc32.1 [] (Or.inl rfl) (strToBytes "IEND")⟩

/-! ## Pixel packing lemmas -/

theorem throwIfInvalidColorValue_ok (v : Int) (h0 : 0 ≤ v)
    (h1 : v ≤ 0xffffff) : throwIfInvalidColorValue v = .ok () := by
  unfold throwIfInvalidColorValue throwIfNegative throwIfOutOfRange
  rw [if_neg (by omega), except_bind_ok,
    if_neg (by simp [VALID_COLOR_VALUE_RANGE]; omega)]

theorem createGrayscalePixelBuffer_ok (v : Int) (h0 : 0 ≤ v)
    (h1 : v ≤ 0xffffff) :
    createGrayscalePixelBuffer v = .ok [convertTrueColorToGrayscale v.toNat] := by
  unfold createGrayscalePixelBuffer
  rw [throwIfInvalidColorValue_ok v h0 h1, except_bind_ok]
  rfl

theorem createTrueColorPixelBuffer_ok (v : Int) (h0 : 0 ≤ v)
    (h1 : v ≤ 0xffffff) :
    createTrueColorPixelBuffer v =
      .ok [(v.toNat >>> 16) &&& 0xff, (v.toNat >>> 8) &&& 0xff,
        v.toNat &&& 0xff] := by
  unfold createTrueColorPixelBuffer
  rw [throwIfInvalidColorValue_ok v h0 h1, except_bind_ok]
  rfl

theorem createAlphaPixelBuffer_ok (v : Int) (h0 : 0 ≤ v) (h1 : v ≤ 0xffffff) :
    createAlphaPixelBuffer v = .ok [if v = 0 then 0x00 else 0xff] := by
  unfold createAlphaPixelBuffer
  rw [throwIfInvalidColorValue_ok v h0 h1, except_bind_ok]
  by_cases hz : v = 0
  · rw [if_pos hz, if_neg (by omega)]
    rfl
  · rw [if_neg hz, if_pos hz]
    rfl

theorem createPixelBuffer_grayscale (v : Int) (h0 : 0 ≤ v)
    (h1 : v ≤ 0xffffff) :
    createPixelBuffer v COLOR_TYPES.GRAYSCALE =
      .ok [convertTrueColorToGrayscale v.toNat] := by
  unfold createPixelBuffer
  rw [if_pos rfl]
  exact createGrayscalePixelBuffer_ok v h0 h1

theorem createPixelBuffer_truecolor (v : Int) (h0 : 0 ≤ v)
    (h1 : v ≤ 0xffffff) :
    createPixelBuffer v COLOR_TYPES.TRUE_COLOR =
      .ok [(v.toNat >>> 16) &&& 0xff, (v.toNat >>> 8) &&& 0xff,
        v.toNat &&& 0xff] := by
  unfold createPixelBuffer
  rw [if_neg (by decide), if_neg (by decide), if_pos rfl]
  exact createTrueColorPixelBuffer_ok v h0 h1

theorem createPixelBuffer_grayscale_alpha (v : Int) (h0 : 0 ≤ v)
    (h1 : v ≤ 0xffffff) :
    createPixelBuffer v COLOR_TYPES.GRAYSCALE_ALPHA =
      .ok ([convertTrueColorToGrayscale v.toNat] ++
        [if v = 0 then 0x00 else 0xff]) := by
  unfold createPixelBuffer
  rw [if_neg (by decide), if_pos rfl,
    createGrayscalePixelBuffer_ok v h0 h1, except_bind_ok,
    createAlphaPixelBuffer_ok v h0 h1, except_bind_ok]
  rfl

theorem createPixelBuffer_truecolor_alpha (v : Int) (h0 : 0 ≤ v)
    (h1 : v ≤ 0xffffff) :
    createPixelBuffer v COLOR_TYPES.TRUE_COLOR_ALPHA =
      .ok ([(v.toNat >>> 16) &&& 0xff, (v.toNat >>> 8) &&& 0xff,
        v.toNat &&& 0xff] ++ [if v = 0 then 0x00 else 0xff]) := by
  unfold createPixelBuffer
  rw [if_neg (by decide), if_neg (by decide), if_neg (by decide), if_pos rfl,
    createTrueColorPixelBuffer_ok v h0 h1, except_bind_ok,
    createAlphaPixelBuffer_ok v h0 h1, except_bind_ok]
  rfl

theorem pixelBufferBytes_eq (v : Nat) (ct : Nat) (hv : v ≤ 0xffffff)
    (hct : SupportedColorType ct) :
    createPixelBuffer (v : Int) ct = .ok (pixelBufferBytes v ct) := by
  have h0 : (0 : Int) ≤ (v : Int) := Int.ofNat_nonneg v
  have h1 : (v : Int) ≤ 0xffffff := by exact_mod_cast hv
  unfold pixelBufferBytes
  rcases hct with rfl | rfl | rfl | rfl
  · rw [createPixelBuffer_grayscale _ h0 h1]
    rfl
  · rw [createPixelBuffer_truecolor _ h0 h1]
    rfl
  · rw [createPixelBuffer_grayscale_alpha _ h0 h1]
    rfl
  · rw [createPixelBuffer_truecolor_alpha _ h0 h1]
    rfl

/-- C5: for every color value in `[0, 0xFFFFFF]`, the alpha modes append
exactly one derived byte after the greyscale or RGB samples — `0xFF` when the
value is nonzero and `0x00` when it is exactly zero; encoding `0x000000` in
TruecolorAlpha yields `[0x00, 0x00, 0x00, 0x00]`; and no nonzero (non-black)
value produces a transparent pixel. -/
theorem claim_C5_alpha_byte (colorValue : Int) (h0 : 0 ≤ colorValue)
    (h1 : colorValue ≤ 0xffffff) :
    createAlphaPixelBuffer colorValue =
      .ok [if colorValue = 0 then 0x00 else 0xff] ∧
    createPixelBuffer colorValue COLOR_TYPES.GRAYSCALE_ALPHA =
      .ok ([convertTrueColorToGrayscale colorValue.toNat] ++
        [if colorValue = 0 then 0x00 else 0xff]) ∧
    createPixelBuffer colorValue COLOR_TYPES.TRUE_COLOR_ALPHA =
      .ok ([(colorValue.toNat >>> 16) &&& 0xff,
        (colorValue.toNat >>> 8) &&& 0xff, colorValue.toNat &&& 0xff] ++
        [if colorValue = 0 then 0x00 else 0xff]) ∧
    createPixelBuffer 0 COLOR_TYPES.TRUE_COLOR_ALPHA =
      .ok [0x00, 0x00, 0x00, 0x00] :=
  ⟨createAlphaPixelBuffer_ok colorValue h0 h1,
   createPixelBuffer_grayscale_alpha colorValue h0 h1,
   createPixelBuffer_truecolor_alpha colorValue h0 h1,
   by rw [createPixelBuffer_truecolor_alpha 0 (by decide) (by decide)]; rfl⟩

theorem claim_C5_alpha_byte_witness :
    ((0 : Int) ≤ 0xabcdef ∧ (0xabcdef : Int) ≤ 0xffffff) ∧
      createPixelBuffer 0xabcdef COLOR_TYPES.TRUE_COLOR_ALPHA =
        .ok ([(Int.toNat 0xabcdef >>> 16) &&& 0xff,
          (Int.toNat 0xabcdef >>> 8) &&& 0xff, Int.toNat 0xabcdef &&& 0xff] ++
          [if (0xabcdef : Int) = 0 then 0x00 else 0xff]) :=
  ⟨by decide, (claim_C5_alpha_byte 0xabcdef (by decide) (by decide)).2.2.1⟩

/-- C6 counterexample: the claim says the Greyscale byte is the exact
rounding `round(0.299·R + 0.587·G + 0.114·B)`, but at the packed color
`0x00240C` (R = 0, G = 0x24 = 36, B = 0x0C = 12, an exact tie
`22.5`) the exact formula rounds to `0x17 = 23` while the code's
double-precision evaluation produces `22.499999999999996…` and
`Math.round` yields `0x16 = 22`. -/
theorem claim_C6_luminance_counterexample :
    createGrayscalePixelBuffer 0x00240c = .ok [0x16] ∧
      convertTrueColorToGrayscale 0x00240c = 0x16 ∧
      specLuminanceByte 0x00240c = 0x17 ∧ (0x16 : Nat) ≠ 0x17 :=
  ⟨rfl, rfl, rfl, by decide⟩

/-- C6 (amended): for every color value in `[0, 0xFFFFFF]`, encoding in
Greyscale mode yields the single byte
`Math.round(0.299·R + 0.587·G + 0.114·B)` as evaluated in IEEE-754 double
precision (`convertTrueColorToGrayscale`), which can differ from the exact
rational rounding only at ties; concretely, encoding `0x123456` yields the
byte `0x2E` — where the double evaluation and the exact formula agree — and
`[0x2E, 0xFF]` in GreyscaleAlpha mode. -/
theorem claim_C6_luminance_amended :
    (∀ colorValue : Int, 0 ≤ colorValue → colorValue ≤ 0xffffff →
      createGrayscalePixelBuffer colorValue =
        .ok [convertTrueColorToGrayscale colorValue.toNat]) ∧
    convertTrueColorToGrayscale 0x123456 = 0x2e ∧
    specLuminanceByte 0x123456 = 0x2e ∧
    createPixelBuffer 0x123456 COLOR_TYPES.GRAYSCALE = .ok [0x2e] ∧
    createPixelBuffer 0x123456 COLOR_TYPES.GRAYSCALE_ALPHA =
      .ok [0x2e, 0xff] := by
  refine ⟨fun v h0 h1 => createGrayscalePixelBuffer_ok v h0 h1, rfl, rfl,
    ?_, ?_⟩
  · rw [createPixelBuffer_grayscale 0x123456 (by decide) (by decide)]
    rfl
  · rw [createPixelBuffer_grayscale_alpha 0x123456 (by decide) (by decide)]
    rfl

theorem claim_C6_luminance_amended_witness :
    ((0 : Int) ≤ 0x123456 ∧ (0x123456 : Int) ≤ 0xffffff) ∧
      createGrayscalePixelBuffer 0x123456 =
        .ok [convertTrueColorToGrayscale (Int.toNat 0x123456)] :=
  ⟨by decide, claim_C6_luminance_amended.1 0x123456 (by decide) (by decide)⟩

/-! ## Constructor validation lemmas -/

theorem throwIfNegative_ok {α : Type} [LinearOrder α] [Zero α] (v : α)
    (h : ¬v < 0) : throwIfNegative v = .ok () := by
  unfold throwIfNegative
  rw [if_neg h]

theorem throwIfNegative_err {α : Type} [LinearOrder α] [Zero α] (v : α)
    (h : v < 0) : throwIfNegative v = .error .rangeError := by
  unfold throwIfNegative
  rw [if_pos h]

theorem validateColor_name_err (s : String) (h : COLORS.lookup s = none) :
    validateColor (.name s) = .error .referenceError := by
  simp only [validateColor, throwIfNotInKeys, h]
  rfl

theorem validateColor_name_ok (s : String) (v : Nat)
    (h : COLORS.lookup s = some v) : validateColor (.name s) = .ok v := by
  simp only [validateColor, throwIfNotInKeys, h]
  rfl

theorem validateColor_value_err (n : Int) (h : n < 0 ∨ 0xffffff < n) :
    validateColor (.value n) = .error .rangeError := by
  simp only [validateColor, throwIfOutOfRange, VALID_COLOR_VALUE_RANGE]
  rw [if_pos (by simpa using h)]
  rfl

theorem validateColor_value_ok (n : Int) (h0 : 0 ≤ n) (h1 : n ≤ 0xffffff) :
    validateColor (.value n) = .ok n.toNat := by
  simp only [validateColor, throwIfOutOfRange, VALID_COLOR_VALUE_RANGE]
  rw [if_neg (by simp; omega)]
  rfl

theorem validateInitialPixelMap_err (m : PixelMap) (nw nh : Int)
    (h : (m.length : Int) ≠ nw ∨ ∃ col ∈ m, (col.length : Int) ≠ nh) :
    validateInitialPixelMap m nw nh = .error .rangeError := by
  unfold validateInitialPixelMap
  by_cases h1 : (m.length : Int) ≠ nw
  · rw [if_pos h1]
  · rw [if_neg h1]
    rcases h with h | ⟨col, hcol, hlen⟩
    · exact absurd h h1
    · rw [if_pos]
      rw [List.any_eq_true]
      exact ⟨col, hcol, by simpa using hlen⟩

/-- C9 counterexample: the claim says the constructor "fails with a range
error if width or height is not a non-negative number", but for a
non-number width (the string `"a"`) `throwIfNotNumber` raises a
`TypeError`, not a `RangeError`. -/
theorem claim_C9_constructor_counterexample :
    PixelCanvas.make (some ⟨.str "a", .num 2, .value 0, none⟩) =
      .error .typeError ∧ JSError.typeError ≠ JSError.rangeError :=
  ⟨rfl, by decide⟩

/-- C9 (amended): the `PixelCanvas` constructor fails with a type error if
width or height is not a number, with a range error if width or height is a
negative number, with a range error if a supplied initial pixel map's outer
length differs from width or any inner column length differs from height,
with a lookup (reference) error if the background color is a symbolic name
absent from the color table, and with a range error if a numeric background
color falls outside `[0, 0xFFFFFF]`; in every failure case no canvas is
produced (the embedding returns only the error). -/
theorem claim_C9_constructor_amended :
    (∀ (s : String) (hv : JSVal) (bg : Color) (pm : Option PixelMap),
      PixelCanvas.make (some ⟨.str s, hv, bg, pm⟩) = .error .typeError) ∧
    (∀ (n : Int) (hv : JSVal) (bg : Color) (pm : Option PixelMap), n < 0 →
      PixelCanvas.make (some ⟨.num n, hv, bg, pm⟩) = .error .rangeError) ∧
    (∀ (nw : Int) (s : String) (bg : Color) (pm : Option PixelMap), 0 ≤ nw →
      PixelCanvas.make (some ⟨.num nw, .str s, bg, pm⟩) =
        .error .typeError) ∧
    (∀ (nw nh : Int) (bg : Color) (pm : Option PixelMap), 0 ≤ nw → nh < 0 →
      PixelCanvas.make (some ⟨.num nw, .num nh, bg, pm⟩) =
        .error .rangeError) ∧
    (∀ (nw nh : Int) (bg : Color) (m : PixelMap), 0 ≤ nw → 0 ≤ nh →
      ((m.length : Int) ≠ nw ∨ ∃ col ∈ m, (col.length : Int) ≠ nh) →
      PixelCanvas.make (some ⟨.num nw, .num nh, bg, some m⟩) =
        .error .rangeError) ∧
    (∀ (nw nh : Int) (s : String) (pm : Option PixelMap), 0 ≤ nw → 0 ≤ nh →
      (∀ m, pm = some m → validateInitialPixelMap m nw nh = .ok ()) →
      COLORS.lookup s = none →
      PixelCanvas.make (some ⟨.num nw, .num nh, .name s, pm⟩) =
        .error .referenceError) ∧
    (∀ (nw nh n : Int) (pm : Option PixelMap), 0 ≤ nw → 0 ≤ nh →
      (∀ m, pm = some m → validateInitialPixelMap m nw nh = .ok ()) →
      (n < 0 ∨ 0xffffff < n) →
      PixelCanvas.make (some ⟨.num nw, .num nh, .value n, pm⟩) =
        .error .rangeError) := by
  refine ⟨fun s hv bg pm => rfl, ?_, ?_, ?_, ?_, ?_, ?_⟩
  · intro n hv bg pm hn
    simp only [PixelCanvas.make, throwIfNotNumber, except_bind_ok]
    rw [throwIfNegative_err n hn]
    rfl
  · intro nw s bg pm h0
    simp only [PixelCanvas.make, throwIfNotNumber, except_bind_ok]
    rw [throwIfNegative_ok nw (by omega), except_bind_ok]
    rfl
  · intro nw nh bg pm h0 hn
    simp only [PixelCanvas.make, throwIfNotNumber, except_bind_ok]
    rw [throwIfNegative_ok nw (by omega), except_bind_ok,
      throwIfNegative_err nh hn]
    rfl
  · intro nw nh bg m h0 h1 hbad
    simp only [PixelCanvas.make, throwIfNotNumber, except_bind_ok]
    rw [throwIfNegative_ok nw (by omega), except_bind_ok,
      throwIfNegative_ok nh (by omega), except_bind_ok,
      validateInitialPixelMap_err m nw nh hbad]
    rfl
  · intro nw nh s pm h0 h1 hpm hs
    rcases pm with _ | m
    · simp only [PixelCanvas.make, throwIfNotNumber, except_bind_ok]
      rw [throwIfNegative_ok nw (by omega), except_bind_ok,
        throwIfNegative_ok nh (by omega), except_bind_ok,
        validateColor_name_err s hs]
      rfl
    · simp only [PixelCanvas.make, throwIfNotNumber, except_bind_ok]
      rw [throwIfNegative_ok nw (by omega), except_bind_ok,
        throwIfNegative_ok nh (by omega), except_bind_ok,
        hpm m rfl, except_bind_ok, validateColor_name_err s hs]
      rfl
  · intro nw nh n pm h0 h1 hpm hn
    rcases pm with _ | m
    · simp only [PixelCanvas.make, throwIfNotNumber, except_bind_ok]
      rw [throwIfNegative_ok nw (by omega), except_bind_ok,
        throwIfNegative_ok nh (by omega), except_bind_ok,
        validateColor_value_err n hn]
      rfl
    · simp only [PixelCanvas.make, throwIfNotNumber, except_bind_ok]
      rw [throwIfNegative_ok nw (by omega), except_bind_ok,
        throwIfNegative_ok nh (by omega), except_bind_ok,
        hpm m rfl, except_bind_ok, validateColor_value_err n hn]
      rfl

theorem claim_C9_constructor_amended_witness :
    ((-1 : Int) < 0) ∧
      PixelCanvas.make (some ⟨.num (-1), .num 2, .value 0, none⟩) =
        .error .rangeError :=
  ⟨by decide,
    claim_C9_constructor_amended.2.1 (-1) (.num 2) (.value 0) none
      (by decide)⟩

/-! ## Raw pixel stream lemmas -/

theorem resolvedCell_eq (c : PixelCanvas) (hlen : c.pixelMap.length = c.width)
    (hcols : ∀ col ∈ c.pixelMap, col.length = c.height) (x y : Nat)
    (hx : x < c.width) (hy : y < c.height) :
    ((addBackgroundColor c.pixelMap c.backgroundColor).getD x []).getD y 0 =
      specResolveCell (get2d c.pixelMap x y) c.backgroundColor := by
  have hx' : x < c.pixelMap.length := by omega
  have hy' : y < c.pixelMap[x].length := by
    rw [hcols _ (List.getElem_mem hx')]
    exact hy
  unfold addBackgroundColor get2d specResolveCell
  simp only [List.getD_eq_getElem?_getD, List.getElem?_map,
    List.getElem?_eq_getElem hx', List.getElem?_eq_getElem hy',
    Option.map_some', Option.getD_some]
  cases c.pixelMap[x][y] <;> rfl

theorem resolvedCell_le (c : PixelCanvas) (hbg : c.backgroundColor ≤ 0xffffff)
    (hcells : ∀ col ∈ c.pixelMap, ∀ cell ∈ col, ∀ v ∈ cell, v ≤ 0xffffff)
    (x y : Nat) :
    specResolveCell (get2d c.pixelMap x y) c.backgroundColor ≤ 0xffffff := by
  unfold specResolveCell get2d
  by_cases hx : x < c.pixelMap.length
  · rw [List.getD_eq_getElem c.pixelMap [] hx]
    by_cases hy : y < c.pixelMap[x].length
    · rw [List.getD_eq_getElem _ none hy]
      cases hcv : c.pixelMap[x][y] with
      | none => simpa using hbg
      | some v =>
        have hv : v ≤ 0xffffff := by
          refine hcells _ (List.getElem_mem hx) _ (List.getElem_mem hy) v ?_
          rw [hcv]
          rfl
        simpa using hv
    · rw [List.getD_eq_default _ none (by omega)]
      simpa using hbg
  · rw [List.getD_eq_default _ [] (by omega)]
    simpa using hbg

theorem mapM_bind_flatten_ok {ε : Type} (f : Nat → Except ε (List Nat))
    (g : Nat → List Nat) (l : List Nat) (h : ∀ a ∈ l, f a = .ok (g a)) :
    (l.mapM f >>= fun scanlines => pure scanlines.flatten) =
      .ok ((l.map g).flatten) := by
  rw [except_list_mapM_ok f g l h, except_bind_ok]
  rfl

theorem mapM_scanline_ok {ε : Type} (f : Nat → Except ε (List Nat))
    (g : Nat → List Nat) (l : List Nat) (h : ∀ a ∈ l, f a = .ok (g a)) :
    (l.mapM f >>= fun pixels => pure (bufferAlloc 1 ++ pixels.flatten)) =
      .ok (0 :: (l.map g).flatten) := by
  rw [except_list_mapM_ok f g l h, except_bind_ok]
  rfl

/-- C1: for every well-formed canvas with legal colors and every supported
color mode, the raw (pre-compression) pixel stream of `#computeImageBuffer`
is obtained by replacing every unset cell with the background color (explicit
values passing through), then emitting, for each row `y` from top to bottom,
a single filter-type byte `0` followed by the encoded bytes of the pixels for
`x` from left to right, all scanlines concatenated. -/
theorem claim_C1_raw_pixel_stream (c : PixelCanvas) (colorType : Nat)
    (hwf : c.WF) (hval : c.ValidColors)
    (hct : SupportedColorType colorType) :
    computeImageBuffer c colorType = .ok (specRawPixelStream c colorType) := by
  obtain ⟨hlen, hcols⟩ := hwf
  obtain ⟨hbg, hcells⟩ := hval
  unfold computeImageBuffer PixelCanvas.getSize PixelCanvas.getPixelMap
    PixelCanvas.getBackgroundColor
  dsimp only
  rw [specRawPixelStream, List.flatMap_def]
  refine mapM_bind_flatten_ok _ (specScanline c colorType) _ ?_
  intro y hy
  have hy' : y < c.height := List.mem_range.mp hy
  rw [specScanline, List.flatMap_def]
  refine mapM_scanline_ok _
    (fun x => pixelBufferBytes
      (specResolveCell (get2d c.pixelMap x y) c.backgroundColor) colorType)
    _ ?_
  intro x hx
  have hx' : x < c.width := List.mem_range.mp hx
  dsimp only
  rw [resolvedCell_eq c hlen hcols x y hx' hy']
  exact pixelBufferBytes_eq _ colorType (resolvedCell_le c hbg hcells x y) hct

theorem claim_C1_raw_pixel_stream_witness :
    PixelCanvas.WF ⟨2, 2, [[some 0x123456, none], [none, none]], 0, 0x010203⟩ ∧
      PixelCanvas.ValidColors
        ⟨2, 2, [[some 0x123456, none], [none, none]], 0, 0x010203⟩ ∧
      SupportedColorType 2 ∧
      computeImageBuffer
        ⟨2, 2, [[some 0x123456, none], [none, none]], 0, 0x010203⟩ 2 =
        .ok (specRawPixelStream
          ⟨2, 2, [[some 0x123456, none], [none, none]], 0, 0x010203⟩ 2) :=
  ⟨by decide, by decide, by decide,
    claim_C1_raw_pixel_stream _ 2 (by decide) (by decide) (by decide)⟩

/-! ## Pixel-map mutation lemmas -/

theorem get2d_set2d_eq (m : PixelMap) (x y : Nat) (v : Option Nat)
    (hx : x < m.length) (hy : y < (m.getD x []).length) :
    get2d (set2d m x y v) x y = v := by
  unfold get2d set2d
  simp only [List.getD_eq_getElem?_getD]
  rw [List.getElem?_set, if_pos rfl, if_pos hx, Option.getD_some,
    List.getElem?_set, if_pos rfl,
    if_pos (by rwa [List.getD_eq_getElem?_getD] at hy)]
  rfl

theorem get2d_set2d_ne (m : PixelMap) (x y p q : Nat) (v : Option Nat)
    (h : x ≠ p ∨ y ≠ q) : get2d (set2d m x y v) p q = get2d m p q := by
  unfold get2d set2d
  simp only [List.getD_eq_getElem?_getD]
  by_cases hxp : x = p
  · subst hxp
    have hyq : y ≠ q := h.resolve_left (by simp)
    rw [List.getElem?_set, if_pos rfl]
    by_cases hx : x < m.length
    · rw [if_pos hx, Option.getD_some, List.getElem?_set, if_neg hyq]
    · rw [if_neg hx, Option.getD_none,
        List.getElem?_eq_none (Nat.le_of_not_lt hx)]
      rfl
  · rw [List.getElem?_set, if_neg hxp]

theorem shaped_set2d (m : PixelMap) (W H x y : Nat) (v : Option Nat)
    (h : Shaped m W H) : Shaped (set2d m x y v) W H := by
  obtain ⟨h1, h2⟩ := h
  refine ⟨by rw [set2d, List.length_set]; exact h1, ?_⟩
  intro i hi
  unfold set2d
  simp only [List.getD_eq_getElem?_getD]
  rw [List.getElem?_set]
  by_cases hxi : x = i
  · subst hxi
    by_cases hx : x < m.length
    · rw [if_pos rfl, if_pos hx, Option.getD_some, List.length_set]
      have := h2 x hi
      rwa [List.getD_eq_getElem?_getD] at this
    · rw [if_pos rfl, if_neg hx, Option.getD_none]
      have := h2 x hi
      rw [List.getD_eq_getElem?_getD,
        List.getElem?_eq_none (Nat.le_of_not_lt hx)] at this
      exact this
  · rw [if_neg hxi]
    have := h2 i hi
    rwa [List.getD_eq_getElem?_getD] at this

theorem shaped_initPixelMap (W H : Nat) : Shaped (initPixelMap W H) W H := by
  refine ⟨by simp [initPixelMap], ?_⟩
  intro i hi
  unfold initPixelMap
  rw [List.getD_eq_getElem?_getD, List.getElem?_eq_getElem (by simpa using hi)]
  simp

theorem shaped_WF (c : PixelCanvas) (h : c.WF) :
    Shaped c.pixelMap c.width c.height := by
  obtain ⟨h1, h2⟩ := h
  refine ⟨h1, ?_⟩
  intro i hi
  have hi' : i < c.pixelMap.length := by omega
  rw [List.getD_eq_getElem?_getD, List.getElem?_eq_getElem hi',
    Option.getD_some]
  exact h2 _ (List.getElem_mem hi')

/-! ## Generic lemmas about folds of cell writes -/

theorem foldl_shaped {α : Type} (step : α → PixelMap → PixelMap) (W H : Nat)
    (hstep : ∀ a m, Shaped m W H → Shaped (step a m) W H) :
    ∀ (l : List α) (m : PixelMap), Shaped m W H →
      Shaped (l.foldl (fun m a => step a m) m) W H := by
  intro l
  induction l with
  | nil => intro m h; exact h
  | cons a t ih =>
    intro m h
    rw [List.foldl_cons]
    exact ih _ (hstep a m h)

theorem foldl_get2d_preserve {α : Type} (step : α → PixelMap → PixelMap)
    (W H p q : Nat)
    (hstep : ∀ a m, Shaped m W H → Shaped (step a m) W H) :
    ∀ (l : List α), (∀ a ∈ l, ∀ m, Shaped m W H →
        get2d (step a m) p q = get2d m p q) →
      ∀ m, Shaped m W H →
        get2d (l.foldl (fun m a => step a m) m) p q = get2d m p q := by
  intro l
  induction l with
  | nil => intro _ m _; rfl
  | cons a t ih =>
    intro hpres m hm
    rw [List.foldl_cons]
    rw [ih (fun b hb => hpres b (List.mem_cons_of_mem a hb)) _
      (hstep a m hm)]
    exact hpres a (List.mem_cons_self a t) m hm

theorem foldl_get2d_write {α : Type} (step : α → PixelMap → PixelMap)
    (W H p q : Nat) (V : Option Nat) (t : α)
    (hstep : ∀ a m, Shaped m W H → Shaped (step a m) W H) :
    ∀ (l : List α), t ∈ l →
      (∀ a ∈ l, a ≠ t → ∀ m, Shaped m W H →
        get2d (step a m) p q = get2d m p q) →
      (∀ m, Shaped m W H → get2d (step t m) p q = V) →
      ∀ m, Shaped m W H →
        get2d (l.foldl (fun m a => step a m) m) p q = V := by
  intro l
  induction l with
  | nil => intro h; exact absurd h (List.not_mem_nil t)
  | cons a t' ih =>
    intro hmem hothers hwrite m hm
    rw [List.foldl_cons]
    by_cases htm : t ∈ t'
    · exact ih htm
        (fun b hb hbt => hothers b (List.mem_cons_of_mem a hb) hbt)
        hwrite _ (hstep a m hm)
    · have hat : a = t := by
        rcases List.mem_cons.mp hmem with h | h
        · exact h.symm
        · exact absurd h htm
      subst hat
      rw [foldl_get2d_preserve step W H p q hstep t'
        (fun b hb => hothers b (List.mem_cons_of_mem a hb)
          (fun hbt => htm (hbt ▸ hb))) _ (hstep a m hm)]
      exact hwrite m hm

theorem mul_add_block_ne (f a b i j : Nat) (hi : i < f) (hj : j < f)
    (hab : a ≠ b) : a * f + i ≠ b * f + j := by
  intro he
  rcases Nat.lt_or_ge a b with h | h
  · have h2 : (a + 1) * f ≤ b * f := Nat.mul_le_mul_right f h
    rw [Nat.succ_mul] at h2
    omega
  · have hba : b < a := Nat.lt_of_le_of_ne h (Ne.symm hab)
    have h2 : (b + 1) * f ≤ a * f := Nat.mul_le_mul_right f hba
    rw [Nat.succ_mul] at h2
    omega

theorem block_lt (x i w f : Nat) (hx : x < w) (hi : i < f) :
    x * f + i < w * f := by
  have h2 : (x + 1) * f ≤ w * f := Nat.mul_le_mul_right f hx
  rw [Nat.succ_mul] at h2
  omega

theorem shaped_scaleOnePixel (c : PixelCanvas) (x y f W H : Nat) :
    ∀ m, Shaped m W H → Shaped (scaleOnePixel c x y f m) W H := by
  intro m hm
  unfold scaleOnePixel
  refine foldl_shaped _ W H ?_ _ _ hm
  intro i m' hm'
  refine foldl_shaped _ W H ?_ _ _ hm'
  intro j m'' hm''
  exact shaped_set2d _ W H _ _ _ hm''

theorem scaleOnePixel_preserve (c : PixelCanvas) (x y f W H p q : Nat)
    (hout : (∀ i < f, x * f + i ≠ p) ∨ (∀ j < f, y * f + j ≠ q)) :
    ∀ m, Shaped m W H → get2d (scaleOnePixel c x y f m) p q = get2d m p q := by
  intro m hm
  unfold scaleOnePixel
  refine foldl_get2d_preserve _ W H p q ?_ _ ?_ _ hm
  · intro i m' hm'
    refine foldl_shaped _ W H ?_ _ _ hm'
    intro j m'' hm''
    exact shaped_set2d _ W H _ _ _ hm''
  · intro i hi m' hm'
    refine foldl_get2d_preserve _ W H p q ?_ _ ?_ _ hm'
    · intro j m'' hm''
      exact shaped_set2d _ W H _ _ _ hm''
    · intro j hj m'' hm''
      refine get2d_set2d_ne _ _ _ _ _ _ ?_
      rcases hout with h | h
      · exact Or.inl (h i (List.mem_range.mp hi))
      · exact Or.inr (h j (List.mem_range.mp hj))

theorem scaleOnePixel_write (c : PixelCanvas) (x y f W H i0 j0 : Nat)
    (hi0 : i0 < f) (hj0 : j0 < f) (hpW : x * f + i0 < W)
    (hqH : y * f + j0 < H) :
    ∀ m, Shaped m W H →
      get2d (scaleOnePixel c x y f m) (x * f + i0) (y * f + j0) =
        get2d c.pixelMap x y := by
  intro m hm
  unfold scaleOnePixel
  refine foldl_get2d_write _ W H (x * f + i0) (y * f + j0)
    (get2d c.pixelMap x y) i0 ?_ _ (List.mem_range.mpr hi0) ?_ ?_ _ hm
  · intro i m' hm'
    refine foldl_shaped _ W H ?_ _ _ hm'
    intro j m'' hm''
    exact shaped_set2d _ W H _ _ _ hm''
  · intro i hi hne m' hm'
    refine foldl_get2d_preserve _ W H _ _ ?_ _ ?_ _ hm'
    · intro j m'' hm''
      exact shaped_set2d _ W H _ _ _ hm''
    · intro j hj m'' hm''
      exact get2d_set2d_ne _ _ _ _ _ _ (Or.inl (by omega))
  · intro m' hm'
    refine foldl_get2d_write _ W H _ _ _ j0 ?_ _ (List.mem_range.mpr hj0)
      ?_ ?_ _ hm'
    · intro j m'' hm''
      exact shaped_set2d _ W H _ _ _ hm''
    · intro j hj hne m'' hm''
      exact get2d_set2d_ne _ _ _ _ _ _ (Or.inr (by omega))
    · intro m'' hm''
      refine get2d_set2d_eq _ _ _ _ ?_ ?_
      · rw [hm''.1]
        exact hpW
      · rw [hm''.2 (x * f + i0) hpW]
        exact hqH

theorem pixelMap_ext (m1 m2 : PixelMap) (W H : Nat) (h1 : Shaped m1 W H)
    (h2 : Shaped m2 W H)
    (h : ∀ x < W, ∀ y < H, get2d m1 x y = get2d m2 x y) : m1 = m2 := by
  apply List.ext_getElem (by rw [h1.1, h2.1])
  intro i hi1 hi2
  have hiW : i < W := by rw [← h1.1]; exact hi1
  have c1 := h1.2 i hiW
  rw [List.getD_eq_getElem?_getD, List.getElem?_eq_getElem hi1,
    Option.getD_some] at c1
  have c2 := h2.2 i hiW
  rw [List.getD_eq_getElem?_getD, List.getElem?_eq_getElem hi2,
    Option.getD_some] at c2
  apply List.ext_getElem (by rw [c1, c2])
  intro j hj1 hj2
  have hjH : j < H := by rw [← c1]; exact hj1
  have hcell := h i hiW j hjH
  unfold get2d at hcell
  simp only [List.getD_eq_getElem?_getD, List.getElem?_eq_getElem hi1,
    List.getElem?_eq_getElem hi2, Option.getD_some,
    List.getElem?_eq_getElem hj1, List.getElem?_eq_getElem hj2] at hcell
  exact hcell

theorem throwIfOutOfRange_ok {α : Type} [LinearOrder α] (v lo hi : α)
    (h : ¬(v < lo ∨ hi < v)) : throwIfOutOfRange v lo hi = .ok () := by
  unfold throwIfOutOfRange
  rw [if_neg h]

theorem throwIfOutOfRange_err {α : Type} [LinearOrder α] (v lo hi : α)
    (h : v < lo ∨ hi < v) : throwIfOutOfRange v lo hi = .error .rangeError := by
  unfold throwIfOutOfRange
  rw [if_pos h]

theorem throwIfNotInteger_ok (q : ℚ) (h : q.den = 1) :
    throwIfNotInteger q = .ok () := by
  unfold throwIfNotInteger
  rw [if_pos h]

theorem throwIfNotInteger_err (q : ℚ) (h : q.den ≠ 1) :
    throwIfNotInteger q = .error .typeError := by
  unfold throwIfNotInteger
  rw [if_neg h]

theorem withState_ok {α : Type} (c : PixelCanvas) (a : α) :
    withState c (.ok a) = .ok a := rfl

theorem withState_err {α : Type} (c : PixelCanvas) (e : JSError) :
    (withState c (.error e) : Except (JSError × PixelCanvas) α) =
      .error (e, c) := rfl

/-- C7: for every integer factor `f ∈ [1, 100]` on a `w × h` canvas,
`setScale f` succeeds with a canvas of size `(w·f, h·f)` whose `f × f` block
at `(x·f …, y·f …)` equals the original cell `(x, y)` (unset cells
replicating as unset), leaving cursor and background unchanged, and with
factor 1 the cell contents are unchanged; for a factor that is not an
integer in `[1, 100]`, `setScale` fails and the carried state is the
untouched canvas. -/
theorem claim_C7_set_scale :
    (∀ (c : PixelCanvas) (f : Nat), 1 ≤ f → f ≤ 100 →
      ∃ c', setScale c (f : ℚ) = .ok c' ∧
        c'.width = c.width * f ∧ c'.height = c.height * f ∧
        c'.lastUsedColor = c.lastUsedColor ∧
        c'.backgroundColor = c.backgroundColor ∧
        (∀ x < c.width, ∀ y < c.height, ∀ i < f, ∀ j < f,
          get2d c'.pixelMap (x * f + i) (y * f + j) =
            get2d c.pixelMap x y) ∧
        (f = 1 → c.WF → c'.pixelMap = c.pixelMap)) ∧
    (∀ (c : PixelCanvas) (scale : ℚ),
      (¬∃ f : Nat, (f : ℚ) = scale ∧ 1 ≤ f ∧ f ≤ 100) →
      ∃ e, setScale c scale = .error (e, c)) := by
  constructor
  · intro c f h1 h100
    have hshape : Shaped ((List.range c.width).foldl
        (fun m x => (List.range c.height).foldl
          (fun m y => scaleOnePixel c x y f m) m)
        (initPixelMap (c.width * f) (c.height * f)))
        (c.width * f) (c.height * f) := by
      refine foldl_shaped _ _ _ ?_ _ _ (shaped_initPixelMap _ _)
      intro a m hm
      refine foldl_shaped _ _ _ ?_ _ _ hm
      intro b m' hm'
      exact shaped_scaleOnePixel c a b f _ _ _ hm'
    have hblock : ∀ x < c.width, ∀ y < c.height, ∀ i < f, ∀ j < f,
        get2d ((List.range c.width).foldl
          (fun m x => (List.range c.height).foldl
            (fun m y => scaleOnePixel c x y f m) m)
          (initPixelMap (c.width * f) (c.height * f)))
          (x * f + i) (y * f + j) = get2d c.pixelMap x y := by
      intro x hx y hy i hi j hj
      refine foldl_get2d_write
        (fun a m => (List.range c.height).foldl
          (fun m y => scaleOnePixel c a y f m) m)
        (c.width * f) (c.height * f) (x * f + i) (y * f + j)
        (get2d c.pixelMap x y) x ?_ _ (List.mem_range.mpr hx) ?_ ?_ _
        (shaped_initPixelMap _ _)
      · intro a m hm
        refine foldl_shaped _ _ _ ?_ _ _ hm
        intro b m' hm'
        exact shaped_scaleOnePixel c a b f _ _ _ hm'
      · intro a ha hne m hm
        refine foldl_get2d_preserve _ _ _ _ _ ?_ _ ?_ _ hm
        · intro b m' hm'
          exact shaped_scaleOnePixel c a b f _ _ _ hm'
        · intro b hb m' hm'
          exact scaleOnePixel_preserve c a b f _ _ _ _
            (Or.inl fun i' hi' => mul_add_block_ne f a x i' i hi' hi hne) _
            hm'
      · intro m hm
        refine foldl_get2d_write _ _ _ _ _ (get2d c.pixelMap x y) y ?_ _
          (List.mem_range.mpr hy) ?_ ?_ _ hm
        · intro b m' hm'
          exact shaped_scaleOnePixel c x b f _ _ _ hm'
        · intro b hb hne m' hm'
          exact scaleOnePixel_preserve c x b f _ _ _ _
            (Or.inr fun j' hj' => mul_add_block_ne f b y j' j hj' hj hne) _
            hm'
        · intro m' hm'
          exact scaleOnePixel_write c x y f _ _ i j hi hj
            (block_lt x i c.width f hx hi) (block_lt y j c.height f hy hj)
            m' hm'
    unfold setScale
    dsimp only
    rw [throwIfNegative_ok _ (not_lt.mpr (by positivity)), withState_ok,
      except_bind_ok,
      throwIfOutOfRange_ok _ _ _ (by
        rintro (h | h)
        · have : f < 1 := by exact_mod_cast h
          omega
        · have : 100 < f := by exact_mod_cast h
          omega),
      withState_ok, except_bind_ok,
      throwIfNotInteger_ok _ (Rat.den_natCast f), withState_ok,
      except_bind_ok]
    have hnum : ((f : ℚ)).num.toNat = f := by
      rw [Rat.num_natCast, Int.toNat_natCast]
    rw [hnum]
    refine ⟨_, rfl, rfl, rfl, rfl, rfl, hblock, ?_⟩
    intro hf1 hwf
    subst hf1
    refine pixelMap_ext _ _ c.width c.height ?_ (shaped_WF c hwf) ?_
    · simpa using hshape
    · intro x hx y hy
      have := hblock x hx y hy 0 (by omega) 0 (by omega)
      simpa using this
  · intro c scale hno
    unfold setScale
    dsimp only
    by_cases h0 : scale < 0
    · refine ⟨.rangeError, ?_⟩
      rw [throwIfNegative_err _ h0, withState_err]
      rfl
    · by_cases hr : scale < 1 ∨ 100 < scale
      · refine ⟨.rangeError, ?_⟩
        rw [throwIfNegative_ok _ h0, withState_ok, except_bind_ok,
          throwIfOutOfRange_err _ _ _ hr, withState_err]
        rfl
      · by_cases hd : scale.den = 1
        · exfalso
          apply hno
          have hnum_eq : (scale.num : ℚ) = scale := by
            have h2 := Rat.num_div_den scale
            rw [hd] at h2
            simpa using h2
          have h1q : (1 : ℚ) ≤ scale := not_lt.mp (not_or.mp hr).1
          have hnum1 : 1 ≤ scale.num := by
            rw [← hnum_eq] at h1q
            exact_mod_cast h1q
          have h100q : scale ≤ 100 := not_lt.mp (not_or.mp hr).2
          have hnum100 : scale.num ≤ 100 := by
            rw [← hnum_eq] at h100q
            exact_mod_cast h100q
          refine ⟨scale.num.toNat, ?_, by omega, by omega⟩
          rw [← Int.cast_natCast, Int.toNat_of_nonneg (by omega)]
          exact hnum_eq
        · refine ⟨.typeError, ?_⟩
          rw [throwIfNegative_ok _ h0, withState_ok, except_bind_ok,
            throwIfOutOfRange_ok _ _ _ hr, withState_ok, except_bind_ok,
            throwIfNotInteger_err _ hd, withState_err]
          rfl

theorem claim_C7_set_scale_witness :
    (¬∃ f : Nat, (f : ℚ) = (101 : ℚ) ∧ 1 ≤ f ∧ f ≤ 100) ∧
      ∃ e, setScale PixelCanvas.initial (101 : ℚ) =
        .error (e, PixelCanvas.initial) :=
  ⟨fun ⟨f, hf, _, h100⟩ => by
      have : f = 101 := by exact_mod_cast hf
      omega,
    claim_C7_set_scale.2 PixelCanvas.initial 101
      (fun ⟨f, hf, _, h100⟩ => by
        have : f = 101 := by exact_mod_cast hf
        omega)⟩

/-! ## setPixels lemmas -/

theorem except_forM_cons {ε α : Type} (f : α → Except ε Unit) (a : α)
    (t : List α) : (a :: t).forM f = (f a >>= fun _ => t.forM f) := rfl

theorem forM_range_ok (xs : List Int) (lo hi : Int)
    (h : ∀ x ∈ xs, ¬(x < lo ∨ hi < x)) :
    (xs.forM fun x => throwIfOutOfRange x lo hi) =
      (.ok () : Except JSError Unit) := by
  induction xs with
  | nil => rfl
  | cons a t ih =>
    rw [except_forM_cons, throwIfOutOfRange_ok a lo hi
      (h a (List.mem_cons_self a t)), except_bind_ok]
    exact ih fun x hx => h x (List.mem_cons_of_mem a hx)

theorem forM_range_err (xs : List Int) (lo hi : Int)
    (h : ∃ x ∈ xs, x < lo ∨ hi < x) :
    (xs.forM fun x => throwIfOutOfRange x lo hi) =
      (.error .rangeError : Except JSError Unit) := by
  induction xs with
  | nil =>
    rcases h with ⟨x, hx, _⟩
    cases hx
  | cons a t ih =>
    rw [except_forM_cons]
    by_cases ha : a < lo ∨ hi < a
    · rw [throwIfOutOfRange_err a lo hi ha]
      rfl
    · rw [throwIfOutOfRange_ok a lo hi ha, except_bind_ok]
      apply ih
      rcases h with ⟨x, hx, hbad⟩
      rcases List.mem_cons.mp hx with rfl | hx'
      · exact absurd hbad ha
      · exact ⟨x, hx', hbad⟩

theorem resolveArg_ok (c : PixelCanvas) (color : Option Color) :
    ValidColorArg color →
    (match color with
      | some col => validateColor col
      | none => pure c.lastUsedColor : Except JSError Nat) =
      .ok (resolveArgColor c color) := by
  rcases color with _ | col
  · intro _
    rfl
  · rcases col with s | n
    · intro h
      obtain ⟨v, hv⟩ := Option.isSome_iff_exists.mp h
      show validateColor (.name s) = _
      rw [validateColor_name_ok s v hv]
      unfold resolveArgColor
      dsimp only
      rw [validateColor_name_ok s v hv]
      rfl
    · intro h
      show validateColor (.value n) = _
      rw [validateColor_value_ok n h.1 h.2]
      unfold resolveArgColor
      dsimp only
      rw [validateColor_value_ok n h.1 h.2]
      rfl

theorem resolveArg_err (c : PixelCanvas) (color : Option Color) :
    ¬ValidColorArg color →
    ∃ e, (match color with
      | some col => validateColor col
      | none => pure c.lastUsedColor : Except JSError Nat) = .error e := by
  rcases color with _ | col
  · intro h
    exact absurd trivial h
  · rcases col with s | n
    · intro h
      refine ⟨.referenceError, ?_⟩
      show validateColor (.name s) = _
      refine validateColor_name_err s ?_
      rcases hl : COLORS.lookup s with _ | v
      · rfl
      · refine absurd ?_ h
        show (COLORS.lookup s).isSome = true
        rw [hl]
        rfl
    · intro h
      refine ⟨.rangeError, ?_⟩
      show validateColor (.value n) = _
      refine validateColor_value_err n ?_
      by_contra hc
      exact h ⟨by omega, by omega⟩

/-- C8: `setPixels` validates every x against `[0, width)` and every y
against `[0, height)`; when all coordinates and the color argument are
valid it writes the resolved color to exactly the Cartesian product
`xs × ys` (updating the cursor and nothing else), and when any coordinate
or the color is invalid it throws while the carried canvas state is the
input canvas unchanged — no partial mutation. -/
theorem claim_C8_set_pixels :
    (∀ (c : PixelCanvas) (xs ys : List Int) (color : Option Color),
      c.WF →
      (∀ x ∈ xs, 0 ≤ x ∧ x < (c.width : Int)) →
      (∀ y ∈ ys, 0 ≤ y ∧ y < (c.height : Int)) →
      ValidColorArg color →
      ∃ c', setPixels c xs ys color = .ok c' ∧
        c'.width = c.width ∧ c'.height = c.height ∧
        c'.backgroundColor = c.backgroundColor ∧
        c'.lastUsedColor = resolveArgColor c color ∧
        ∀ p < c.width, ∀ q < c.height,
          get2d c'.pixelMap p q =
            if (p : Int) ∈ xs ∧ (q : Int) ∈ ys then
              some (resolveArgColor c color)
            else get2d c.pixelMap p q) ∧
    (∀ (c : PixelCanvas) (xs ys : List Int) (color : Option Color),
      ((∃ x ∈ xs, x < 0 ∨ (c.width : Int) ≤ x) ∨
        (∃ y ∈ ys, y < 0 ∨ (c.height : Int) ≤ y) ∨
        ¬ValidColorArg color) →
      ∃ e, setPixels c xs ys color = .error (e, c)) := by
  constructor
  · intro c xs ys color hwf hxs hys hcol
    unfold setPixels
    dsimp only
    rw [forM_range_ok xs 0 ((c.width : Int) - 1) (by
        intro x hx
        have := hxs x hx
        omega),
      withState_ok, except_bind_ok,
      forM_range_ok ys 0 ((c.height : Int) - 1) (by
        intro y hy
        have := hys y hy
        omega),
      withState_ok, except_bind_ok, resolveArg_ok c color hcol,
      withState_ok, except_bind_ok]
    refine ⟨_, rfl, rfl, rfl, rfl, rfl, ?_⟩
    intro p hp q hq
    dsimp only
    have hstep : ∀ (a : Int) (m : PixelMap), Shaped m c.width c.height →
        Shaped (ys.foldl (fun m y => set2d m a.toNat y.toNat
          (some (resolveArgColor c color))) m) c.width c.height := by
      intro a m hm
      refine foldl_shaped _ _ _ ?_ _ _ hm
      intro b m' hm'
      exact shaped_set2d _ _ _ _ _ _ hm'
    by_cases hmem : (p : Int) ∈ xs ∧ (q : Int) ∈ ys
    · rw [if_pos hmem]
      refine foldl_get2d_write
        (fun a m => ys.foldl (fun m y => set2d m a.toNat y.toNat
          (some (resolveArgColor c color))) m)
        c.width c.height p q (some (resolveArgColor c color)) (p : Int)
        hstep _ hmem.1 ?_ ?_ _ (shaped_WF c hwf)
      · intro a ha hne m hm
        refine foldl_get2d_preserve _ _ _ _ _ ?_ _ ?_ _ hm
        · intro b m' hm'
          exact shaped_set2d _ _ _ _ _ _ hm'
        · intro b hb m' hm'
          refine get2d_set2d_ne _ _ _ _ _ _ (Or.inl ?_)
          have := (hxs a ha).1
          omega
      · intro m hm
        refine foldl_get2d_write _ c.width c.height p q
          (some (resolveArgColor c color)) (q : Int) ?_ _ hmem.2 ?_ ?_ _ hm
        · intro b m' hm'
          exact shaped_set2d _ _ _ _ _ _ hm'
        · intro b hb hne m' hm'
          refine get2d_set2d_ne _ _ _ _ _ _ (Or.inr ?_)
          have := (hys b hb).1
          omega
        · intro m' hm'
          have hpn : ((p : Int)).toNat = p := Int.toNat_natCast p
          have hqn : ((q : Int)).toNat = q := Int.toNat_natCast q
          rw [hpn, hqn]
          refine get2d_set2d_eq _ _ _ _ ?_ ?_
          · rw [hm'.1]
            exact hp
          · rw [hm'.2 p hp]
            exact hq
    · rw [if_neg hmem]
      rcases not_and_or.mp hmem with hpx | hqy
      · refine foldl_get2d_preserve _ c.width c.height p q hstep _ ?_ _
          (shaped_WF c hwf)
        intro a ha m hm
        refine foldl_get2d_preserve _ _ _ _ _ ?_ _ ?_ _ hm
        · intro b m' hm'
          exact shaped_set2d _ _ _ _ _ _ hm'
        · intro b hb m' hm'
          refine get2d_set2d_ne _ _ _ _ _ _ (Or.inl ?_)
          intro hc
          apply hpx
          have h0a := (hxs a ha).1
          have : a = (p : Int) := by omega
          rwa [this] at ha
      · refine foldl_get2d_preserve _ c.width c.height p q hstep _ ?_ _
          (shaped_WF c hwf)
        intro a ha m hm
        refine foldl_get2d_preserve _ _ _ _ _ ?_ _ ?_ _ hm
        · intro b m' hm'
          exact shaped_set2d _ _ _ _ _ _ hm'
        · intro b hb m' hm'
          refine get2d_set2d_ne _ _ _ _ _ _ (Or.inr ?_)
          intro hc
          apply hqy
          have h0b := (hys b hb).1
          have : b = (q : Int) := by omega
          rwa [this] at hb
  · intro c xs ys color hbad
    unfold setPixels
    dsimp only
    by_cases hx : ∃ x ∈ xs, x < 0 ∨ (c.width : Int) - 1 < x
    · refine ⟨.rangeError, ?_⟩
      rw [forM_range_err xs 0 ((c.width : Int) - 1) hx, withState_err]
      rfl
    · rw [forM_range_ok xs 0 ((c.width : Int) - 1) (by
          intro x hxm
          by_contra hc
          exact hx ⟨x, hxm, by omega⟩),
        withState_ok, except_bind_ok]
      by_cases hy : ∃ y ∈ ys, y < 0 ∨ (c.height : Int) - 1 < y
      · refine ⟨.rangeError, ?_⟩
        rw [forM_range_err ys 0 ((c.height : Int) - 1) hy, withState_err]
        rfl
      · rw [forM_range_ok ys 0 ((c.height : Int) - 1) (by
            intro y hym
            by_contra hc
            exact hy ⟨y, hym, by omega⟩),
          withState_ok, except_bind_ok]
        have hcol : ¬ValidColorArg color := by
          rcases hbad with h | h | h
          · exact absurd (by
              rcases h with ⟨x, hxm, hb⟩
              exact ⟨x, hxm, by omega⟩) hx
          · exact absurd (by
              rcases h with ⟨y, hym, hb⟩
              exact ⟨y, hym, by omega⟩) hy
          · exact h
        obtain ⟨e, he⟩ := resolveArg_err c color hcol
        refine ⟨e, ?_⟩
        rw [he, withState_err]
        rfl

theorem claim_C8_set_pixels_witness :
    (PixelCanvas.WF PixelCanvas.initial ∧
      (∀ x ∈ ([0, 2] : List Int), 0 ≤ x ∧
        x < (PixelCanvas.initial.width : Int)) ∧
      (∀ y ∈ ([1] : List Int), 0 ≤ y ∧
        y < (PixelCanvas.initial.height : Int)) ∧
      ValidColorArg (some (.value 0x123456))) ∧
      ∃ c', setPixels PixelCanvas.initial [0, 2] [1]
          (some (.value 0x123456)) = .ok c' ∧
        c'.width = PixelCanvas.initial.width ∧
        c'.height = PixelCanvas.initial.height ∧
        c'.backgroundColor = PixelCanvas.initial.backgroundColor ∧
        c'.lastUsedColor =
          resolveArgColor PixelCanvas.initial (some (.value 0x123456)) ∧
        ∀ p < PixelCanvas.initial.width, ∀ q < PixelCanvas.initial.height,
          get2d c'.pixelMap p q =
            if (p : Int) ∈ ([0, 2] : List Int) ∧
                (q : Int) ∈ ([1] : List Int) then
              some (resolveArgColor PixelCanvas.initial
                (some (.value 0x123456)))
            else get2d PixelCanvas.initial.pixelMap p q :=
  ⟨⟨by decide, by decide, by decide, by decide⟩,
    claim_C8_set_pixels.1 PixelCanvas.initial [0, 2] [1]
      (some (.value 0x123456)) (by decide) (by decide) (by decide)
      (by decide)⟩
